import Mathlib

/-!
# Verification of the SimpleCam capture example

A shallow embedding, in Lean 4, of the two source files `SimpleCam.h` and
`SimpleCam.cpp` of the libcamera-opencv example application.  The program is
glue code around the vendor (libcamera / OpenCV) APIs, so the embedding keeps
the vendor calls as explicit events in a trace and models the outcomes of the
checked vendor calls as an environment record.  All definitions are transcribed
from the source; functions named after the C++ members (`start`, `go`,
`finish`, `processRequest`, `requestComplete`) follow their bodies line by
line.
-/

set_option linter.unusedVariables false

namespace SimpleCam

/-- `EXIT_SUCCESS` from `<cstdlib>`. -/
def EXIT_SUCCESS : Int := 0

/-- `EXIT_FAILURE` from `<cstdlib>`. -/
def EXIT_FAILURE : Int := 1

/-- The result of `libcamera::Request::status()` (libcamera's
`RequestPending` / `RequestComplete` / `RequestCancelled`). -/
inductive RequestStatus where
  | requestPending
  | requestComplete
  | requestCancelled
  deriving DecidableEq, Repr

/-- A `StreamConfiguration` as read back by `stream->configuration()` in
`processRequest` (`SimpleCam.cpp` lines 79-84): the fields the code reads. -/
structure StreamCfg where
  width : Nat
  height : Nat
  stride : Nat
  pixelFormat : String
  deriving DecidableEq, Repr

/-- One entry of `metadata.planes()` (`FrameMetadata::Plane`); the code reads
only `bytesused`. -/
structure PlaneMeta where
  bytesused : Nat
  deriving DecidableEq, Repr

/-- The `cv::Mat` constructed at `SimpleCam.cpp` line 89:
`cv::Mat image(height, width, CV_8UC1, (uint8_t *)(mem[0].data()))`.
The data pointer argument is modelled as the byte list of the mapped plane
that the constructor call actually reads; the unchecked `mem[0]` access is
embedded as `mem[0]?`, so `data = none` exactly when the access would be out
of bounds. -/
structure CvMat where
  rows : Nat
  cols : Nat
  matType : String
  data : Option (List Nat)
  deriving DecidableEq, Repr

/-- One completed buffer of a request, as observed by `processRequest`: the
stream configuration of the buffer's stream, the frame metadata (`sequence`
and the per-plane `bytesused` values), the mapped planes
(`mappedBuffer.planes()`), and the two `clock()` readings the code converts
to strings (one printed after " sec ", one used in the image file name). -/
structure BufferData where
  cfg : StreamCfg
  sequence : Nat
  planes : List PlaneMeta
  mem : List (List Nat)
  clockPrint : String
  clockWrite : String
  deriving DecidableEq, Repr

/-- A `libcamera::Request` as seen by the completion path: its identity, its
`status()`, and its buffer map. -/
structure Request where
  id : Nat
  status : RequestStatus
  buffers : List BufferData
  deriving DecidableEq, Repr

/-- Observable events of the program: every vendor call the code performs,
every line it prints (`print` for `std::cout`, `printErr` for `std::cerr`)
and every image file it writes.  `configure b` records the two
`camera->configure(config.get())` call sites of `start` (`b = true` for the
checked call at line 278, `b = false` for the unchecked call at line 298);
`queueRequest` is the `camera->queueRequest` call in `go`, `requeue` the one
in `processRequest`. -/
inductive Event where
  | print (s : String)
  | printErr (s : String)
  | cmStart
  | cmStop
  | getCamera (id : String)
  | acquire
  | generateConfiguration
  | setWidth (w : Nat)
  | setHeight (h : Nat)
  | configure (firstCall : Bool)
  | validate
  | newAllocator
  | allocate (stream : Nat)
  | createRequest (i : Nat)
  | addBuffer (i : Nat)
  | setControl (i : Nat) (ctrl : String) (v : Int)
  | connectRequestCompleted
  | cameraStart
  | queueRequest (i : Nat)
  | loopTimeout (sec : Nat)
  | complete (i : Nat)
  | reuse (i : Nat)
  | requeue (i : Nat)
  | imwrite (path : String) (img : CvMat)
  | cameraStop
  | freeBuffers
  | deleteAllocator
  | releaseCamera
  | resetCamera
  deriving DecidableEq, Repr

/-! ## processRequest (`SimpleCam.cpp` lines 51-97) -/

/-- `std::setw(6) << std::setfill('0') << metadata.sequence`: the decimal
representation of `sequence`, right-justified in a field of width 6 padded
with `'0'` (wider than 6 when the number needs more digits). -/
def padSeq (seq : Nat) : String :=
  let s := toString seq
  String.mk (List.replicate (6 - s.length) '0') ++ s

/-- The inner plane loop of `processRequest` (`SimpleCam.cpp` lines 64-70):
`nplane` starts at 0; each plane's `bytesused` is printed, and a "/" follows
whenever the incremented counter is still below `n = metadata.planes().size()`. -/
def planesLoop (n : Nat) : List Nat → Nat → String
  | [], _ => ""
  | p :: rest, nplane =>
    toString p ++ (if nplane + 1 < n then "/" else "") ++ planesLoop n rest (nplane + 1)

/-- The full output of the plane loop for the `bytesused` list `ps`. -/
def bytesusedOut (ps : List Nat) : String :=
  planesLoop ps.length ps 0

/-- The trailing part of the per-buffer line (`SimpleCam.cpp` lines 84-85):
`" size WxH stride S format F sec T"`. -/
def sizePart (b : BufferData) : String :=
  " size " ++ toString b.cfg.width ++ "x" ++ toString b.cfg.height
    ++ " stride " ++ toString b.cfg.stride ++ " format " ++ b.cfg.pixelFormat
    ++ " sec " ++ b.clockPrint

/-- The single output line printed for a completed buffer: the `" seq: ..."`
statement at line 62, the plane loop, and the `" size ..."` statement at
lines 84-85 all feed one line (the `std::endl` between them is commented
out at line 72). -/
def metaLine (b : BufferData) : String :=
  " seq: " ++ padSeq b.sequence ++ " bytesused: "
    ++ bytesusedOut (b.planes.map PlaneMeta.bytesused) ++ sizePart b

/-- The `cv::Mat` constructor call of `SimpleCam.cpp` line 89. -/
def mkMat (height width : Nat) (mem : List (List Nat)) : CvMat :=
  { rows := height, cols := width, matType := "CV_8UC1", data := mem[0]? }

/-- The image `processRequest` builds for buffer `b`. -/
def imageOf (b : BufferData) : CvMat :=
  mkMat b.cfg.height b.cfg.width b.mem

/-- The path passed to `cv::imwrite` at `SimpleCam.cpp` line 91. -/
def imagePath (b : BufferData) : String :=
  "images/img" ++ b.clockWrite ++ ".png"

/-- The body of the `for (auto bufferPair : buffers)` loop for one buffer:
print the metadata line, then write the image. -/
def bufferOut (b : BufferData) : List Event :=
  [Event.print (metaLine b), Event.imwrite (imagePath b) (imageOf b)]

/-- `SimpleCam::processRequest` (`SimpleCam.cpp` lines 51-97): for each buffer
of the request print its line and write its image, then
`request->reuse(Request::ReuseBuffers)` and `camera->queueRequest(request)`. -/
def processRequest (req : Request) : List Event :=
  (req.buffers.map bufferOut).flatten ++ [Event.reuse req.id, Event.requeue req.id]

/-! ## requestComplete (`SimpleCam.cpp` lines 43-49) -/

/-- What the completion slot may do: schedule work on the event loop
(`loop.callLater`), print, or write a file. -/
inductive SlotEffect where
  | callLater (r : Request)
  | print (s : String)
  | imwrite (path : String) (img : CvMat)
  deriving DecidableEq, Repr

/-- `SimpleCam::requestComplete` (`SimpleCam.cpp` lines 43-49): if the
request was cancelled, return; otherwise
`loop.callLater(std::bind(&processRequest, request))`. -/
def requestComplete (req : Request) : List SlotEffect :=
  if req.status = RequestStatus.requestCancelled then []
  else [SlotEffect.callLater req]

/-- Running a slot effect on the event loop: a scheduled
`processRequest` runs its body; other effects would appear verbatim. -/
def runEffect : SlotEffect → List Event
  | SlotEffect.callLater r => processRequest r
  | SlotEffect.print s => [Event.print s]
  | SlotEffect.imwrite p img => [Event.imwrite p img]

/-- One request completion delivered by the camera: the completion event
itself followed by whatever the slot scheduled, as later run by the loop. -/
def deliver (r : Request) : List Event :=
  Event.complete r.id :: ((requestComplete r).map runEffect).flatten

/-! ## start (`SimpleCam.cpp` lines 141-439) -/

/-- One camera reported by `cm->cameras()`: the location/model-dependent part
of `cameraName` and the camera's `id()`. -/
structure CameraInfo where
  name : String
  id : String
  deriving DecidableEq, Repr

/-- `SimpleCam::cameraName` (`SimpleCam.cpp` lines 116-139) after the
location switch: the location/model-dependent name with `" (" + id + ")"`
appended. -/
def cameraName (c : CameraInfo) : String :=
  c.name ++ " (" ++ c.id ++ ")"

/-- One entry of `camera->controls()`: the control's `name()`, the printed
`toString()` of its info and of its default value
(`SimpleCam.cpp` line 305). -/
structure ControlItem where
  name : String
  info : String
  defVal : String
  deriving DecidableEq, Repr

/-- The line printed for a control at `SimpleCam.cpp` line 305. -/
def controlLine (c : ControlItem) : String :=
  c.name ++ ": " ++ c.info ++ " = " ++ c.defVal

/-- One entry of `camera->properties()`: the numeric control id and the
printed value (`SimpleCam.cpp` line 314). -/
structure PropItem where
  id : Nat
  value : String
  deriving DecidableEq, Repr

/-- The line printed for a property at `SimpleCam.cpp` line 314. -/
def propLine (p : PropItem) : String :=
  toString p.id ++ ": " ++ p.value

/-- The outcomes of the vendor calls `start` makes, and the vendor-produced
strings it prints: the camera list, the two `camera->configure` return
values (first the checked call at line 278, then the unchecked call at line
298), the streams of the generated configuration with the result and buffer
count of `allocator->allocate` for each, the control and property listings,
and the per-request outcomes of `camera->createRequest` /
`request->addBuffer`. -/
structure StartEnv where
  cameras : List CameraInfo
  defaultCfgStr : String
  validatedCfgStr : String
  configureRet1 : Int
  configureRet2 : Int
  streamIds : List Nat
  allocateRet : Nat → Int
  allocatedCount : Nat → Nat
  controls : List ControlItem
  properties : List PropItem
  numBuffers : Nat
  createRequestOk : Nat → Bool
  addBufferRet : Nat → Int

/-- The allocation loop of `start` (`SimpleCam.cpp` lines 341-352): for each
stream configuration, call `allocator->allocate(cfg.stream())`; on a negative
result print `"Can't allocate buffers"` to `cerr` and stop with failure,
otherwise print the allocated-buffer count and continue.  Returns the events
and whether the loop ran to completion. -/
def allocLoop (allocateRet : Nat → Int) (allocatedCount : Nat → Nat) :
    List Nat → List Event × Bool
  | [] => ([], true)
  | s :: rest =>
    if allocateRet s < 0 then
      ([Event.allocate s, Event.printErr "Can't allocate buffers"], false)
    else
      let r := allocLoop allocateRet allocatedCount rest
      (Event.allocate s
        :: Event.print ("Allocated " ++ toString (allocatedCount s) ++ " buffers for stream")
        :: r.1, r.2)

/-- Result of the request-creation loop: its events, whether it completed,
and the indices of the requests pushed into the `requests` vector. -/
structure LoopRes where
  trace : List Event
  ok : Bool
  pushed : List Nat
  deriving DecidableEq, Repr

/-- The request-creation loop of `start` (`SimpleCam.cpp` lines 374-403): for
each buffer index, `camera->createRequest()` (failure: print
`"Can't create request"` and stop), `request->addBuffer(stream, buffer)`
(negative: print `"Can't set buffer for request"` and stop), then set the
`AnalogueGain` / `ExposureTime` / `ExposureValue` controls to 100000 and push
the request. -/
def requestLoop (createRequestOk : Nat → Bool) (addBufferRet : Nat → Int) :
    List Nat → LoopRes
  | [] => ⟨[], true, []⟩
  | i :: rest =>
    if createRequestOk i = false then
      ⟨[Event.createRequest i, Event.printErr "Can't create request"], false, []⟩
    else if addBufferRet i < 0 then
      ⟨[Event.createRequest i, Event.addBuffer i,
        Event.printErr "Can't set buffer for request"], false, []⟩
    else
      let r := requestLoop createRequestOk addBufferRet rest
      ⟨Event.createRequest i :: Event.addBuffer i
        :: Event.setControl i "AnalogueGain" 100000
        :: Event.setControl i "ExposureTime" 100000
        :: Event.setControl i "ExposureValue" 100000 :: r.trace,
       r.ok, i :: r.pushed⟩

/-- What `start` produces: its event trace, its return value, and the
contents of the `requests` vector when it returns. -/
structure StartResult where
  trace : List Event
  ret : Int
  requests : List Nat
  deriving DecidableEq, Repr

/-- `SimpleCam.cpp` lines 161-171: `cm->start()` and the camera listing. -/
def listingTrace (env : StartEnv) : List Event :=
  Event.cmStart :: env.cameras.map (fun c => Event.print (" - " ++ cameraName c))

/-- `SimpleCam.cpp` lines 161-278: everything `start` does up to and
including the checked `camera->configure` call, once the camera list is
known to be nonempty (its first element being `c0`): the listing, `cm->get`
of the first camera's id, `camera->acquire()`, `generateConfiguration`,
printing the default configuration, overwriting the stream size with
2592x1944, and the checked `configure` call at line 278. -/
def header1 (env : StartEnv) (c0 : CameraInfo) : List Event :=
  listingTrace env
    ++ [Event.getCamera c0.id, Event.acquire, Event.generateConfiguration,
        Event.print ("Default viewfinder configuration is: " ++ env.defaultCfgStr),
        Event.setWidth 2592, Event.setHeight 1944, Event.configure true]

/-- `SimpleCam.cpp` lines 291-339: `config->validate()`, printing the
validated configuration, the unchecked second `camera->configure` call at
line 298, the controls and properties listings (the source prints the header
"properies:"), and `new FrameBufferAllocator(camera)`. -/
def header2 (env : StartEnv) : List Event :=
  [Event.validate,
   Event.print ("Validated viewfinder configuration is: " ++ env.validatedCfgStr),
   Event.configure false, Event.print "controls:"]
    ++ env.controls.map (fun c => Event.print (controlLine c))
    ++ [Event.print "properies:"]
    ++ env.properties.map (fun p => Event.print (propLine p))
    ++ [Event.newAllocator]

/-- `SimpleCam::start` (`SimpleCam.cpp` lines 141-439), transcribed: start
the camera manager and list the cameras; if the list is empty print the
message, stop the manager and fail; acquire the first camera; generate a
Viewfinder configuration and print it; overwrite the stream size with
2592x1944; `camera->configure` (checked, failing with the message when
nonzero); `validate` and print the validated configuration;
`camera->configure` again (unchecked); print controls and properties; create
the allocator and run the allocation loop; run the request-creation loop;
connect `requestCompleted` and start the camera. -/
def start (env : StartEnv) : StartResult :=
  match env.cameras with
  | [] =>
    { trace := listingTrace env
        ++ [Event.print "No cameras were identified on the system.", Event.cmStop]
      ret := EXIT_FAILURE, requests := [] }
  | c0 :: _ =>
    if env.configureRet1 ≠ 0 then
      { trace := header1 env c0 ++ [Event.print "CONFIGURATION FAILED!"]
        ret := EXIT_FAILURE, requests := [] }
    else
      let a := allocLoop env.allocateRet env.allocatedCount env.streamIds
      if a.2 = false then
        { trace := header1 env c0 ++ header2 env ++ a.1
          ret := EXIT_FAILURE, requests := [] }
      else
        let r := requestLoop env.createRequestOk env.addBufferRet (List.range env.numBuffers)
        if r.ok = false then
          { trace := header1 env c0 ++ header2 env ++ a.1 ++ r.trace
            ret := EXIT_FAILURE, requests := [] }
        else
          { trace := header1 env c0 ++ header2 env ++ a.1 ++ r.trace
              ++ [Event.connectRequestCompleted, Event.cameraStart]
            ret := EXIT_SUCCESS, requests := r.pushed }

/-! ## go (`SimpleCam.cpp` lines 441-458) and finish (lines 460-477) -/

/-- The line printed at the end of `go` (`SimpleCam.cpp` lines 455-456), with
`TIMEOUT_SEC = 3`. -/
def goMsg (ret : Int) : String :=
  "Capture ran for 3 seconds and stopped with exit status: " ++ toString ret

/-- What happens while `loop.exec()` runs: the sequence of completed requests
the camera delivers, and the exit status `loop.exec()` returns. -/
structure GoEnv where
  completions : List Request
  execRet : Int

/-- `SimpleCam::go` (`SimpleCam.cpp` lines 441-458): queue every request of
the `requests` vector, set the loop timeout to `TIMEOUT_SEC`, run the event
loop (during which the deliveries happen), print the exit-status line, and
return `EXIT_SUCCESS`. -/
def go (requests : List Nat) (genv : GoEnv) : List Event × Int :=
  (requests.map Event.queueRequest
    ++ [Event.loopTimeout 3]
    ++ (genv.completions.map deliver).flatten
    ++ [Event.print (goMsg genv.execRet)],
   EXIT_SUCCESS)

/-- The teardown sequence of `SimpleCam::finish` (`SimpleCam.cpp` lines
469-474): `camera->stop()`, `allocator->free(stream)`, `delete allocator`,
`camera->release()`, `camera.reset()`, `cm->stop()`. -/
def finishTrace : List Event :=
  [Event.cameraStop, Event.freeBuffers, Event.deleteAllocator,
   Event.releaseCamera, Event.resetCamera, Event.cmStop]

/-- `SimpleCam::finish` (`SimpleCam.cpp` lines 460-477): the teardown
sequence, returning `EXIT_SUCCESS`. -/
def finish : List Event × Int := (finishTrace, EXIT_SUCCESS)

/-- A whole run of the application: `start`, and when it succeeded, `go`
followed by `finish` (when `start` fails nothing else runs). -/
def run (env : StartEnv) (genv : GoEnv) : List Event :=
  let s := start env
  if s.ret = EXIT_SUCCESS then s.trace ++ (go s.requests genv).1 ++ finishTrace
  else s.trace

/-- A concrete environment in which every checked vendor call succeeds:
one camera, configure returning 0, one stream with 4 buffers allocated,
2 requests each created and filled successfully. -/
def demoEnv : StartEnv :=
  { cameras := [⟨"Internal front camera", "cam0"⟩]
    defaultCfgStr := "640x480-YUYV"
    validatedCfgStr := "2592x1944-YUYV"
    configureRet1 := 0
    configureRet2 := 0
    streamIds := [0]
    allocateRet := fun _ => 4
    allocatedCount := fun _ => 4
    controls := []
    properties := []
    numBuffers := 2
    createRequestOk := fun _ => true
    addBufferRet := fun _ => 0 }

/-- A concrete loop-execution environment: one completed (non-cancelled)
request with id 5 carrying one buffer, and `loop.exec()` returning 0. -/
def demoGo : GoEnv :=
  { completions := [⟨5, RequestStatus.requestComplete,
      [⟨⟨2592, 1944, 2592, "R8"⟩, 1, [⟨100⟩], [[7]], "0.1", "0.2"⟩]⟩]
    execRet := 0 }

/-! ## The class declaration (`SimpleCam.h` lines 26-45)

The header's member list, transcribed, with the `static` qualifier of each
member recorded, together with the facts about `SimpleCam.cpp` that C++
well-formedness ties to those qualifiers. -/

/-- A data-member declaration of a C++ class: its name and whether it is
declared `static`. -/
structure MemberDecl where
  name : String
  isStatic : Bool
  deriving DecidableEq, Repr

/-- The data members of `class SimpleCam` exactly as declared in
`SimpleCam.h` lines 38-44; none of them carries the `static` keyword there. -/
def simpleCamDataMembers : List MemberDecl :=
  [⟨"camera", false⟩, ⟨"loop", false⟩, ⟨"aThread", false⟩, ⟨"stream", false⟩,
   ⟨"allocator", false⟩, ⟨"cm", false⟩, ⟨"requests", false⟩]

/-- The member functions declared `static` in `SimpleCam.h` lines 30-31. -/
def simpleCamStaticMemberFns : List String :=
  ["processRequest", "requestComplete"]

/-- The member names given out-of-class definitions at `SimpleCam.cpp` lines
25-26 (`std::shared_ptr<Camera> SimpleCam::camera;` and
`EventLoop SimpleCam::loop;`); C++ allows such a definition only for a
static data member. -/
def outOfClassDefinedMembers : List String := ["camera", "loop"]

/-- The member names referenced inside the static member functions:
`loop` in `requestComplete` (`SimpleCam.cpp` line 48) and `camera` in
`processRequest` (line 96); a static member function can only refer to
static members this way. -/
def membersUsedInStaticFns : List String := ["loop", "camera"]

/-- Whether the header declares member `n` as `static`. -/
def declaredStatic (n : String) : Bool :=
  simpleCamDataMembers.any (fun m => m.name = n && m.isStatic)

/-- C++ well-formedness of the pair of files with respect to static members:
every member defined out of class, and every member used inside a static
member function, must be declared `static` in the class. -/
def headerConsistentWithCpp : Prop :=
  ∀ n ∈ outOfClassDefinedMembers ++ membersUsedInStaticFns, declaredStatic n = true

/-! ## Helper definitions used by the statements -/

/-- Number of occurrences of event `e` in a trace. -/
def countEv (e : Event) (tr : List Event) : Nat := tr.count e

/-- The paths of the image files a trace writes, in order. -/
def writesOf (tr : List Event) : List String :=
  tr.filterMap fun e =>
    match e with
    | Event.imwrite p _ => some p
    | _ => none

/-- Spec-side description of the plane output: the pieces joined with a `"/"`
between consecutive elements and none after the last. -/
def joinSlash : List String → String
  | [] => ""
  | [s] => s
  | s :: t :: rest => s ++ "/" ++ joinSlash (t :: rest)

/-- The five failure messages `start` can print. -/
def failMsg (s : String) : Bool :=
  s = "No cameras were identified on the system." || s = "CONFIGURATION FAILED!"
    || s = "Can't allocate buffers" || s = "Can't create request"
    || s = "Can't set buffer for request"

/-- Whether an event prints a failure message (to `cout` or `cerr`). -/
def failMsgEv : Event → Bool
  | Event.print s => failMsg s
  | Event.printErr s => failMsg s
  | _ => false

/-- Number of failure messages printed in a trace. -/
def failMsgCount (tr : List Event) : Nat := tr.countP failMsgEv

/-- The failure condition of `start`, in the words of the specification: the
camera list is empty, or the checked `camera->configure` returns nonzero, or
some `allocator->allocate` returns a negative value, or some
`camera->createRequest` returns null, or some `request->addBuffer` returns a
negative value. -/
def startFails (env : StartEnv) : Prop :=
  env.cameras = [] ∨ env.configureRet1 ≠ 0
    ∨ (∃ s ∈ env.streamIds, env.allocateRet s < 0)
    ∨ (∃ i < env.numBuffers, env.createRequestOk i = false ∨ env.addBufferRet i < 0)

/-- A trace that ends at the point of failure: its last event is a failure
message, except on the empty-camera-list path where `cm->stop()` follows the
message. -/
def endsAtFailure (tr : List Event) : Prop :=
  (∃ pre e, failMsgEv e = true ∧ tr = pre ++ [e])
    ∨ (∃ pre, tr = pre
        ++ [Event.print "No cameras were identified on the system.", Event.cmStop])

/-- Every event satisfying `p` occurs strictly before every event
satisfying `q`. -/
def eventsBefore (p q : Event → Bool) (tr : List Event) : Prop :=
  ∀ i j, (hi : i < tr.length) → (hj : j < tr.length) →
    p (tr.get ⟨i, hi⟩) = true → q (tr.get ⟨j, hj⟩) = true → i < j

/-- The event is the `camera->acquire()` call. -/
def isAcquireEv : Event → Bool
  | Event.acquire => true
  | _ => false

/-- The event is a `camera->configure` call (either call site). -/
def isConfigureEv : Event → Bool
  | Event.configure _ => true
  | _ => false

/-- The event is an `allocator->allocate` call. -/
def isAllocateEv : Event → Bool
  | Event.allocate _ => true
  | _ => false

/-- The event is a `camera->queueRequest` call made by `go`. -/
def isQueueEv : Event → Bool
  | Event.queueRequest _ => true
  | _ => false

/-- The event is the completion of a request. -/
def isCompleteEv : Event → Bool
  | Event.complete _ => true
  | _ => false

/-- The event is a requeue (the `camera->queueRequest` call in
`processRequest`). -/
def isRequeueEv : Event → Bool
  | Event.requeue _ => true
  | _ => false

/-- The event is the `camera->release()` call of `finish`. -/
def isReleaseEv : Event → Bool
  | Event.releaseCamera => true
  | _ => false

/-- Every occurrence of `requeue i` in the trace is strictly preceded by an
occurrence of `complete i`: request `i` is never requeued before it has
completed. -/
def requeuePreceded (i : Nat) (tr : List Event) : Prop :=
  ∀ j, (hj : j < tr.length) → tr.get ⟨j, hj⟩ = Event.requeue i →
    ∃ k, ∃ hk : k < tr.length, k < j ∧ tr.get ⟨k, hk⟩ = Event.complete i

/-! ## C2: the completion slot -/

/-- C2: for every completed request delivered to the completion slot,
`requestComplete` returns with no effect when the request's status is
`RequestCancelled`, and otherwise its only effect is to schedule
`processRequest` for that request on the event loop; it never prints or
writes an image itself. -/
theorem requestComplete_defers_processing (req : Request) :
    (req.status = RequestStatus.requestCancelled → requestComplete req = [])
    ∧ (req.status ≠ RequestStatus.requestCancelled →
        requestComplete req = [SlotEffect.callLater req])
    ∧ (∀ e ∈ requestComplete req,
        (∀ s, e ≠ SlotEffect.print s) ∧ (∀ p img, e ≠ SlotEffect.imwrite p img)) := by
  refine ⟨fun h => by simp [requestComplete, h],
    fun h => by simp [requestComplete, h], ?_⟩
  intro e he
  unfold requestComplete at he
  split at he <;> simp_all

/-- Witness for C2 at concrete requests. -/
theorem requestComplete_defers_processing_witness :
    requestComplete ⟨0, RequestStatus.requestCancelled, []⟩ = []
    ∧ requestComplete ⟨1, RequestStatus.requestComplete, []⟩
        = [SlotEffect.callLater ⟨1, RequestStatus.requestComplete, []⟩] :=
  ⟨(requestComplete_defers_processing ⟨0, RequestStatus.requestCancelled, []⟩).1 rfl,
   (requestComplete_defers_processing ⟨1, RequestStatus.requestComplete, []⟩).2.1
     (by decide)⟩

/-! ## C5: the header does not declare camera and loop static -/

/-- C5 (refuting the claim as stated about the declaration): the `camera`
handle and the event `loop` are NOT declared `static` in `SimpleCam.h`
(lines 38-39), and this is inconsistent with `SimpleCam.cpp`, whose lines
25-26 give both members out-of-class definitions and whose static member
functions use them — both of which C++ permits only for static members. -/
theorem camera_loop_not_declared_static :
    declaredStatic "camera" = false ∧ declaredStatic "loop" = false
    ∧ ¬ headerConsistentWithCpp := by
  refine ⟨rfl, rfl, ?_⟩
  intro h
  have hc := h "camera" (by decide)
  simp [declaredStatic, simpleCamDataMembers] at hc

/-! ## C7: finish -/

/-- C7: `finish` performs the teardown in the order camera stop, free the
allocator's buffers, delete the allocator, release the camera, reset the
shared camera handle, stop the camera manager — each exactly once — and
always returns `EXIT_SUCCESS`. -/
theorem finish_teardown :
    finish.2 = EXIT_SUCCESS
    ∧ finish.1 = [Event.cameraStop, Event.freeBuffers, Event.deleteAllocator,
        Event.releaseCamera, Event.resetCamera, Event.cmStop]
    ∧ (∀ e ∈ finish.1, countEv e finish.1 = 1) := by
  refine ⟨rfl, rfl, ?_⟩
  decide

/-- Witness for C7: the camera release happens exactly once, and finish
returns `EXIT_SUCCESS`. -/
theorem finish_teardown_witness :
    countEv Event.releaseCamera finish.1 = 1 ∧ finish.2 = EXIT_SUCCESS :=
  ⟨finish_teardown.2.2 Event.releaseCamera (by decide), finish_teardown.1⟩

/-! ## C8: go -/

/-- C8: `go` always returns `EXIT_SUCCESS` regardless of the exit status
returned by `loop.exec()`: the value is printed in the final line but never
propagated, so the return value is the same for every exec status. -/
theorem go_always_success (requests : List Nat) (genv : GoEnv) :
    (go requests genv).2 = EXIT_SUCCESS
    ∧ (∃ pre, (go requests genv).1 = pre ++ [Event.print (goMsg genv.execRet)])
    ∧ (∀ r : Int, (go requests { genv with execRet := r }).2 = (go requests genv).2) :=
  ⟨rfl, ⟨_, rfl⟩, fun _ => rfl⟩

/-! ## C9: the image constructed by processRequest -/

/-- C9: `processRequest` reads only the first mapped plane of each buffer
(the unchecked `mem[0]` access, in bounds exactly when the buffer has at
least one mapped plane) and interprets it as a single-channel 8-bit image
(`CV_8UC1`) of the stream's configured width and height, ignoring the
configured stride and pixel format. -/
theorem processRequest_first_plane_image (b : BufferData) (cfg2 : StreamCfg)
    (hw : cfg2.width = b.cfg.width) (hh : cfg2.height = b.cfg.height) :
    (imageOf b).data = b.mem[0]?
    ∧ (b.mem ≠ [] → (imageOf b).data.isSome = true)
    ∧ (imageOf b).rows = b.cfg.height
    ∧ (imageOf b).cols = b.cfg.width
    ∧ (imageOf b).matType = "CV_8UC1"
    ∧ imageOf { b with cfg := cfg2 } = imageOf b
    ∧ (∀ mem2 : List (List Nat), mem2[0]? = b.mem[0]? →
        imageOf { b with mem := mem2 } = imageOf b) := by
  refine ⟨rfl, ?_, rfl, rfl, rfl, ?_, ?_⟩
  · intro hne
    obtain ⟨x, xs, hmem⟩ := List.exists_cons_of_ne_nil hne
    simp [imageOf, mkMat, hmem]
  · simp [imageOf, mkMat, hw, hh]
  · intro mem2 hm
    simp [imageOf, mkMat, hm]

/-- Witness for C9 at a concrete buffer. -/
theorem processRequest_first_plane_image_witness :
    (imageOf ⟨⟨640, 480, 1280, "YUYV"⟩, 7, [⟨100⟩], [[3, 4], [5]], "1.5", "2.5"⟩).data
        = some [3, 4]
    ∧ imageOf ⟨⟨640, 480, 9999, "MJPEG"⟩, 7, [⟨100⟩], [[3, 4], [5]], "1.5", "2.5"⟩
        = imageOf ⟨⟨640, 480, 1280, "YUYV"⟩, 7, [⟨100⟩], [[3, 4], [5]], "1.5", "2.5"⟩ := by
  have h := processRequest_first_plane_image
    ⟨⟨640, 480, 1280, "YUYV"⟩, 7, [⟨100⟩], [[3, 4], [5]], "1.5", "2.5"⟩
    ⟨640, 480, 9999, "MJPEG"⟩ rfl rfl
  exact ⟨h.1, h.2.2.2.2.2.1⟩

/-! ## C4: the files processRequest writes -/

theorem writesOf_append (a b : List Event) :
    writesOf (a ++ b) = writesOf a ++ writesOf b :=
  List.filterMap_append a b _

theorem writesOf_bufferOuts (l : List BufferData) :
    writesOf (l.map bufferOut).flatten = l.map imagePath := by
  induction l with
  | nil => rfl
  | cons b t ih =>
    simp only [List.map_cons, List.flatten_cons, writesOf_append, ih]
    rfl

/-- C4: for every buffer of every request it processes, `processRequest`
writes exactly one image file, namely `images/img<timestamp>.png`; it
performs no other write.  Through the completion slot, a cancelled request
produces no write at all, and a non-cancelled one exactly these. -/
theorem processRequest_writes_one_png_per_buffer (req : Request) :
    writesOf (processRequest req) = req.buffers.map imagePath
    ∧ (∀ p ∈ writesOf (processRequest req), ∃ ts, p = "images/img" ++ ts ++ ".png")
    ∧ (req.status = RequestStatus.requestCancelled → writesOf (deliver req) = [])
    ∧ (req.status ≠ RequestStatus.requestCancelled →
        writesOf (deliver req) = req.buffers.map imagePath) := by
  have hmain : writesOf (processRequest req) = req.buffers.map imagePath := by
    unfold processRequest
    rw [writesOf_append, writesOf_bufferOuts]
    simp [writesOf]
  refine ⟨hmain, ?_, ?_, ?_⟩
  · intro p hp
    rw [hmain] at hp
    obtain ⟨b, _, rfl⟩ := List.mem_map.mp hp
    exact ⟨b.clockWrite, rfl⟩
  · intro h
    simp [deliver, requestComplete, h, writesOf]
  · intro h
    simp only [deliver, requestComplete, if_neg h, List.map_cons, List.map_nil,
      List.flatten_cons, List.flatten_nil, List.append_nil, runEffect]
    rw [show (Event.complete req.id :: processRequest req)
        = [Event.complete req.id] ++ processRequest req from rfl,
      writesOf_append, hmain]
    rfl

/-- Witness for C4 at a concrete request. -/
theorem processRequest_writes_one_png_per_buffer_witness :
    writesOf (processRequest ⟨2, RequestStatus.requestComplete,
        [⟨⟨640, 480, 640, "R8"⟩, 5, [⟨100⟩], [[1]], "0.5", "0.75"⟩]⟩)
      = ["images/img0.75.png"]
    ∧ (∃ ts, "images/img0.75.png" = "images/img" ++ ts ++ ".png") := by
  have h := processRequest_writes_one_png_per_buffer
    ⟨2, RequestStatus.requestComplete, [⟨⟨640, 480, 640, "R8"⟩, 5, [⟨100⟩], [[1]], "0.5", "0.75"⟩]⟩
  refine ⟨by rw [h.1]; rfl, h.2.1 _ ?_⟩
  rw [h.1]
  exact List.mem_singleton.mpr rfl

/-! ## C6: the metadata line -/

theorem planesLoop_spec (l : List Nat) :
    ∀ k n, n = k + l.length → planesLoop n l k = joinSlash (l.map toString) := by
  induction l with
  | nil => intro k n _; rfl
  | cons p t ih =>
    intro k n hn
    cases t with
    | nil =>
      have hnot : ¬ (k + 1 < n) := by simp at hn; omega
      simp [planesLoop, hnot, joinSlash]
    | cons q r =>
      have hlt : k + 1 < n := by simp at hn; omega
      have hrec := ih (k + 1) n (by simp at hn ⊢; omega)
      rw [planesLoop, if_pos hlt, hrec]
      simp only [List.map_cons, joinSlash]

theorem bytesusedOut_eq (ps : List Nat) :
    bytesusedOut ps = joinSlash (ps.map toString) :=
  planesLoop_spec ps 0 ps.length (by omega)

theorem padSeq_length (seq : Nat) :
    (padSeq seq).length = max 6 (toString seq).length := by
  unfold padSeq
  simp only [String.length_append, String.length_mk, List.length_replicate]
  omega

theorem toString_nat_length_le (seq : Nat) (h : seq < 1000000) :
    (toString seq).length ≤ 6 := by
  have : (Nat.repr seq).length ≤ 6 := Nat.repr_length seq 6 (by omega) (by omega)
  exact this

/-- C6: the metadata line printed by `processRequest` contains the frame
sequence number zero-padded to a 6-character field (exactly 6 characters for
sequence numbers below 10^6), followed by the `bytesused` value of each of
the buffer's metadata planes in order, joined by a `"/"` between consecutive
planes and none after the last (`n - 1` separators for `n` pieces). -/
theorem metaLine_format (b : BufferData) (hp : b.planes ≠ []) :
    metaLine b = " seq: " ++ padSeq b.sequence ++ " bytesused: "
        ++ joinSlash (b.planes.map (fun p => toString p.bytesused)) ++ sizePart b
    ∧ (b.planes.map (fun p => toString p.bytesused)).length = b.planes.length
    ∧ (padSeq b.sequence).length = max 6 (toString b.sequence).length
    ∧ (b.sequence < 1000000 → (padSeq b.sequence).length = 6) := by
  refine ⟨?_, List.length_map _ _, padSeq_length _, ?_⟩
  · unfold metaLine
    rw [bytesusedOut_eq]
    simp [List.map_map]
    rfl
  · intro h
    rw [padSeq_length]
    have := toString_nat_length_le b.sequence h
    omega

/-- Witness for C6 at a concrete buffer: sequence 42, planes 100 and 200. -/
theorem metaLine_format_witness :
    metaLine ⟨⟨4, 3, 4, "R8"⟩, 42, [⟨100⟩, ⟨200⟩], [[0]], "1.0", "2.0"⟩
      = " seq: " ++ padSeq 42 ++ " bytesused: "
        ++ joinSlash [toString 100, toString 200]
        ++ sizePart ⟨⟨4, 3, 4, "R8"⟩, 42, [⟨100⟩, ⟨200⟩], [[0]], "1.0", "2.0"⟩
    ∧ (padSeq 42).length = 6 := by
  have h := metaLine_format ⟨⟨4, 3, 4, "R8"⟩, 42, [⟨100⟩, ⟨200⟩], [[0]], "1.0", "2.0"⟩
    (by decide)
  exact ⟨h.1, h.2.2.2 (by decide)⟩

/-! ## String facts: failure messages are distinguishable from other output -/

theorem failMsg_head (s : String) (h : failMsg s = true) :
    s.data.head? = some 'N' ∨ s.data.head? = some 'C' := by
  simp only [failMsg, Bool.or_eq_true, decide_eq_true_eq] at h
  rcases h with ((((h | h) | h) | h) | h) <;> subst h <;> decide

theorem failMsg_no_colon (s : String) (h : failMsg s = true) : ':' ∉ s.data := by
  simp only [failMsg, Bool.or_eq_true, decide_eq_true_eq] at h
  rcases h with ((((h | h) | h) | h) | h) <;> subst h <;> decide

theorem failMsg_false_of_colon {s : String} (h : ':' ∈ s.data) : failMsg s = false := by
  cases hf : failMsg s
  · rfl
  · exact absurd h (failMsg_no_colon s hf)

theorem failMsg_false_of_head {s : String} {c : Char} (h : s.data.head? = some c)
    (h1 : c ≠ 'N') (h2 : c ≠ 'C') : failMsg s = false := by
  cases hf : failMsg s
  · rfl
  · rcases failMsg_head s hf with hh | hh
    · rw [h] at hh
      exact absurd (Option.some.inj hh) h1
    · rw [h] at hh
      exact absurd (Option.some.inj hh) h2

theorem head_append_of_cons {a : String} {c : Char} {l : List Char}
    (h : a.data = c :: l) (b : String) : (a ++ b).data.head? = some c := by
  rw [String.data_append, h]
  rfl

theorem colon_append_left {a : String} (h : ':' ∈ a.data) (b : String) :
    ':' ∈ (a ++ b).data := by
  rw [String.data_append]
  exact List.mem_append_left _ h

theorem colon_append_right (a : String) {b : String} (h : ':' ∈ b.data) :
    ':' ∈ (a ++ b).data := by
  rw [String.data_append]
  exact List.mem_append_right _ h

theorem failMsg_listing (x : String) : failMsg (" - " ++ x) = false := by
  have h : ((" - " : String) ++ x).data.head? = some ' ' :=
    head_append_of_cons (by decide : (" - ").data = ' ' :: ['-', ' ']) x
  exact failMsg_false_of_head h (by decide) (by decide)

theorem failMsg_default (s : String) :
    failMsg ("Default viewfinder configuration is: " ++ s) = false := by
  have h : ':' ∈ (("Default viewfinder configuration is: " : String) ++ s).data :=
    colon_append_left (by decide) s
  exact failMsg_false_of_colon h

theorem failMsg_validated (s : String) :
    failMsg ("Validated viewfinder configuration is: " ++ s) = false := by
  have h : ':' ∈ (("Validated viewfinder configuration is: " : String) ++ s).data :=
    colon_append_left (by decide) s
  exact failMsg_false_of_colon h

theorem failMsg_controlLine (c : ControlItem) : failMsg (controlLine c) = false := by
  have h0 : ':' ∈ (c.name ++ ": ").data :=
    colon_append_right c.name (by decide)
  exact failMsg_false_of_colon
    (colon_append_left (colon_append_left (colon_append_left h0 c.info) " = ") c.defVal)

theorem failMsg_propLine (p : PropItem) : failMsg (propLine p) = false := by
  have h0 : ':' ∈ (toString p.id ++ ": ").data :=
    colon_append_right (toString p.id) (by decide)
  exact failMsg_false_of_colon (colon_append_left h0 p.value)

theorem failMsg_allocated (n : Nat) :
    failMsg ("Allocated " ++ toString n ++ " buffers for stream") = false := by
  have h1 : (("Allocated " : String) ++ toString n).data
      = 'A' :: (("llocated " : String).data ++ (toString n).data) := by
    rw [String.data_append, (by decide : ("Allocated ").data = 'A' :: ("llocated ").data)]
    rfl
  have h : ((("Allocated " : String) ++ toString n) ++ " buffers for stream").data.head?
      = some 'A' := head_append_of_cons h1 _
  exact failMsg_false_of_head h (by decide) (by decide)

theorem failMsgEv_listing (c : CameraInfo) :
    failMsgEv (Event.print (" - " ++ cameraName c)) = false := by
  simp only [failMsgEv]
  exact failMsg_listing (cameraName c)

theorem failMsgEv_controlLine (c : ControlItem) :
    failMsgEv (Event.print (controlLine c)) = false := by
  simp only [failMsgEv]
  exact failMsg_controlLine c

theorem failMsgEv_propLine (p : PropItem) :
    failMsgEv (Event.print (propLine p)) = false := by
  simp only [failMsgEv]
  exact failMsg_propLine p

theorem failMsgEv_allocated (n : Nat) :
    failMsgEv (Event.print ("Allocated " ++ toString n ++ " buffers for stream")) = false := by
  simp only [failMsgEv]
  exact failMsg_allocated n

/-! ## Counting failure messages in each trace segment -/

theorem failMsgCount_append (a b : List Event) :
    failMsgCount (a ++ b) = failMsgCount a + failMsgCount b :=
  List.countP_append _ _ _

theorem failMsgCount_listing (env : StartEnv) : failMsgCount (listingTrace env) = 0 := by
  unfold failMsgCount listingTrace
  rw [List.countP_eq_zero]
  intro e he
  rcases List.mem_cons.mp he with he | he
  · subst he
    decide
  · obtain ⟨c, _, rfl⟩ := List.mem_map.mp he
    simp [failMsgEv_listing c]

theorem failMsgCount_header1 (env : StartEnv) (c0 : CameraInfo) :
    failMsgCount (header1 env c0) = 0 := by
  unfold header1
  rw [failMsgCount_append, failMsgCount_listing]
  simp only [failMsgCount, List.countP_cons, List.countP_nil]
  simp only [failMsgEv, failMsg_default env.defaultCfgStr]
  simp

theorem failMsgCount_header2 (env : StartEnv) : failMsgCount (header2 env) = 0 := by
  unfold header2
  simp only [failMsgCount, List.countP_append, List.countP_cons, List.countP_nil]
  have hc : List.countP failMsgEv (env.controls.map fun c => Event.print (controlLine c)) = 0 := by
    rw [List.countP_eq_zero]
    intro e he
    obtain ⟨c, _, rfl⟩ := List.mem_map.mp he
    simp [failMsgEv_controlLine c]
  have hp : List.countP failMsgEv (env.properties.map fun p => Event.print (propLine p)) = 0 := by
    rw [List.countP_eq_zero]
    intro e he
    obtain ⟨p, _, rfl⟩ := List.mem_map.mp he
    simp [failMsgEv_propLine p]
  rw [hc, hp]
  simp only [failMsgEv, failMsg_validated env.validatedCfgStr]
  simp [failMsg]

/-! ## Properties of the allocation loop -/

theorem allocLoop_ok (f : Nat → Int) (g : Nat → Nat) (l : List Nat) :
    (allocLoop f g l).2 = true ↔ ∀ s ∈ l, ¬ f s < 0 := by
  induction l with
  | nil => simp [allocLoop]
  | cons s t ih =>
    by_cases hs : f s < 0
    · simp [allocLoop, hs]
    · have hs' : 0 ≤ f s := Int.not_lt.mp hs
      simp [allocLoop, hs, ih, hs']

theorem allocLoop_count (f : Nat → Int) (g : Nat → Nat) (l : List Nat) :
    failMsgCount (allocLoop f g l).1 = if (allocLoop f g l).2 = true then 0 else 1 := by
  induction l with
  | nil => simp [allocLoop, failMsgCount]
  | cons s t ih =>
    by_cases hs : f s < 0
    · simp only [allocLoop, if_pos hs]
      simp [failMsgCount, List.countP_cons, failMsgEv]
      decide
    · simp only [allocLoop, if_neg hs]
      simp only [failMsgCount, List.countP_cons] at ih ⊢
      rw [show failMsgEv (Event.allocate s) = false from rfl,
        failMsgEv_allocated (g s)]
      simpa using ih

theorem allocLoop_fail_shape (f : Nat → Int) (g : Nat → Nat) (l : List Nat)
    (h : (allocLoop f g l).2 = false) :
    ∃ pre, (allocLoop f g l).1 = pre ++ [Event.printErr "Can't allocate buffers"] := by
  induction l with
  | nil => simp [allocLoop] at h
  | cons s t ih =>
    by_cases hs : f s < 0
    · exact ⟨[Event.allocate s], by simp [allocLoop, hs]⟩
    · simp only [allocLoop, if_neg hs] at h ⊢
      obtain ⟨pre, hpre⟩ := ih h
      exact ⟨Event.allocate s
          :: Event.print ("Allocated " ++ toString (g s) ++ " buffers for stream") :: pre,
        by simp [hpre]⟩

theorem allocLoop_allocate_mem (f : Nat → Int) (g : Nat → Nat) (s : Nat) :
    ∀ l, Event.allocate s ∈ (allocLoop f g l).1 → s ∈ l := by
  intro l
  induction l with
  | nil => simp [allocLoop]
  | cons x t ih =>
    intro h
    by_cases hx : f x < 0
    · simp only [allocLoop, if_pos hx] at h
      simp at h
      subst h
      exact List.mem_cons_self _ _
    · simp only [allocLoop, if_neg hx] at h
      simp at h
      rcases h with h | h
      · subst h
        exact List.mem_cons_self _ _
      · exact List.mem_cons_of_mem _ (ih h)

theorem allocLoop_countEv (f : Nat → Int) (g : Nat → Nat) (s : Nat) (l : List Nat)
    (hnd : l.Nodup) : countEv (Event.allocate s) (allocLoop f g l).1 ≤ 1 := by
  induction l with
  | nil => simp [allocLoop, countEv]
  | cons x t ih =>
    obtain ⟨hx_notin, hnd_t⟩ := List.nodup_cons.mp hnd
    by_cases hx : f x < 0
    · simp only [allocLoop, if_pos hx]
      simp only [countEv, List.count_cons, List.count_nil, beq_iff_eq]
      split_ifs <;> simp_all
    · simp only [allocLoop, if_neg hx]
      simp only [countEv, List.count_cons, beq_iff_eq] at ih ⊢
      by_cases hxs : x = s
      · have hz : List.count (Event.allocate s) (allocLoop f g t).1 = 0 := by
          rw [List.count_eq_zero]
          intro hmem
          have := allocLoop_allocate_mem f g s t hmem
          rw [hxs] at hx_notin
          exact hx_notin this
        simp [hz, hxs]
      · have hb := ih hnd_t
        simp [hxs]
        omega

theorem allocLoop_mem (f : Nat → Int) (g : Nat → Nat) (l : List Nat) :
    ∀ e ∈ (allocLoop f g l).1, (∃ s, e = Event.allocate s)
      ∨ (∃ s, e = Event.print s) ∨ (∃ s, e = Event.printErr s) := by
  induction l with
  | nil => simp [allocLoop]
  | cons s t ih =>
    intro e he
    by_cases hs : f s < 0
    · simp only [allocLoop, if_pos hs, List.mem_cons, List.mem_singleton,
        List.not_mem_nil, or_false] at he
      rcases he with he | he
      · exact Or.inl ⟨s, he⟩
      · exact Or.inr (Or.inr ⟨_, he⟩)
    · simp only [allocLoop, if_neg hs, List.mem_cons] at he
      rcases he with he | he | he
      · exact Or.inl ⟨s, he⟩
      · exact Or.inr (Or.inl ⟨_, he⟩)
      · exact ih e he

/-! ## Properties of the request-creation loop -/

theorem requestLoop_ok (cf : Nat → Bool) (af : Nat → Int) (l : List Nat) :
    (requestLoop cf af l).ok = true ↔ ∀ i ∈ l, cf i = true ∧ ¬ af i < 0 := by
  induction l with
  | nil => simp [requestLoop]
  | cons i t ih =>
    by_cases hci : cf i = false
    · simp [requestLoop, hci]
    · have hci' : cf i = true := by
        revert hci
        cases cf i <;> simp
      by_cases hai : af i < 0
      · simp [requestLoop, hci, hai]
      · have hai' : 0 ≤ af i := Int.not_lt.mp hai
        simp [requestLoop, hci, hai, ih, hci', hai']

theorem requestLoop_count (cf : Nat → Bool) (af : Nat → Int) (l : List Nat) :
    failMsgCount (requestLoop cf af l).trace
      = if (requestLoop cf af l).ok = true then 0 else 1 := by
  induction l with
  | nil => simp [requestLoop, failMsgCount]
  | cons i t ih =>
    by_cases hci : cf i = false
    · simp only [requestLoop, if_pos hci]
      simp [failMsgCount, List.countP_cons, failMsgEv]
      decide
    · by_cases hai : af i < 0
      · simp only [requestLoop, if_neg hci, if_pos hai]
        simp [failMsgCount, List.countP_cons, failMsgEv]
        decide
      · simp only [requestLoop, if_neg hci, if_neg hai]
        simp only [failMsgCount, List.countP_cons] at ih ⊢
        simp only [show failMsgEv (Event.createRequest i) = false from rfl,
          show failMsgEv (Event.addBuffer i) = false from rfl,
          show ∀ c v, failMsgEv (Event.setControl i c v) = false from fun _ _ => rfl]
        simpa using ih

theorem requestLoop_fail_shape (cf : Nat → Bool) (af : Nat → Int) (l : List Nat)
    (h : (requestLoop cf af l).ok = false) :
    ∃ pre e, failMsgEv e = true
      ∧ (requestLoop cf af l).trace = pre ++ [e] := by
  induction l with
  | nil => simp [requestLoop] at h
  | cons i t ih =>
    by_cases hci : cf i = false
    · exact ⟨[Event.createRequest i], Event.printErr "Can't create request",
        by decide, by simp [requestLoop, hci]⟩
    · by_cases hai : af i < 0
      · exact ⟨[Event.createRequest i, Event.addBuffer i],
          Event.printErr "Can't set buffer for request",
          by decide, by simp [requestLoop, hci, hai]⟩
      · simp only [requestLoop, if_neg hci, if_neg hai] at h ⊢
        obtain ⟨pre, e, he, hpre⟩ := ih h
        exact ⟨Event.createRequest i :: Event.addBuffer i
            :: Event.setControl i "AnalogueGain" 100000
            :: Event.setControl i "ExposureTime" 100000
            :: Event.setControl i "ExposureValue" 100000 :: pre, e, he,
          by simp [hpre]⟩

theorem requestLoop_pushed (cf : Nat → Bool) (af : Nat → Int) (l : List Nat)
    (h : (requestLoop cf af l).ok = true) : (requestLoop cf af l).pushed = l := by
  induction l with
  | nil => rfl
  | cons i t ih =>
    by_cases hci : cf i = false
    · simp [requestLoop, hci] at h
    · by_cases hai : af i < 0
      · simp [requestLoop, hci, hai] at h
      · simp only [requestLoop, if_neg hci, if_neg hai] at h ⊢
        rw [ih h]

theorem requestLoop_mem (cf : Nat → Bool) (af : Nat → Int) (l : List Nat) :
    ∀ e ∈ (requestLoop cf af l).trace,
      (∃ i, e = Event.createRequest i) ∨ (∃ i, e = Event.addBuffer i)
        ∨ (∃ i c v, e = Event.setControl i c v) ∨ (∃ s, e = Event.printErr s) := by
  induction l with
  | nil => simp [requestLoop]
  | cons i t ih =>
    intro e he
    by_cases hci : cf i = false
    · simp only [requestLoop, if_pos hci, List.mem_cons, List.not_mem_nil,
        or_false] at he
      rcases he with he | he
      · exact Or.inl ⟨i, he⟩
      · exact Or.inr (Or.inr (Or.inr ⟨_, he⟩))
    · by_cases hai : af i < 0
      · simp only [requestLoop, if_neg hci, if_pos hai, List.mem_cons,
          List.not_mem_nil, or_false] at he
        rcases he with he | he | he
        · exact Or.inl ⟨i, he⟩
        · exact Or.inr (Or.inl ⟨i, he⟩)
        · exact Or.inr (Or.inr (Or.inr ⟨_, he⟩))
      · simp only [requestLoop, if_neg hci, if_neg hai, List.mem_cons] at he
        rcases he with he | he | he | he | he | he
        · exact Or.inl ⟨i, he⟩
        · exact Or.inr (Or.inl ⟨i, he⟩)
        · exact Or.inr (Or.inr (Or.inl ⟨i, _, _, he⟩))
        · exact Or.inr (Or.inr (Or.inl ⟨i, _, _, he⟩))
        · exact Or.inr (Or.inr (Or.inl ⟨i, _, _, he⟩))
        · exact ih e he

theorem requestLoop_create_mem (cf : Nat → Bool) (af : Nat → Int) (i : Nat) :
    ∀ l, Event.createRequest i ∈ (requestLoop cf af l).trace → i ∈ l := by
  intro l
  induction l with
  | nil => simp [requestLoop]
  | cons x t ih =>
    intro h
    by_cases hcx : cf x = false
    · simp only [requestLoop, if_pos hcx] at h
      simp at h
      subst h
      exact List.mem_cons_self _ _
    · by_cases hax : af x < 0
      · simp only [requestLoop, if_neg hcx, if_pos hax] at h
        simp at h
        subst h
        exact List.mem_cons_self _ _
      · simp only [requestLoop, if_neg hcx, if_neg hax] at h
        simp at h
        rcases h with h | h
        · subst h
          exact List.mem_cons_self _ _
        · exact List.mem_cons_of_mem _ (ih h)

theorem requestLoop_addBuffer_mem (cf : Nat → Bool) (af : Nat → Int) (i : Nat) :
    ∀ l, Event.addBuffer i ∈ (requestLoop cf af l).trace → i ∈ l := by
  intro l
  induction l with
  | nil => simp [requestLoop]
  | cons x t ih =>
    intro h
    by_cases hcx : cf x = false
    · simp only [requestLoop, if_pos hcx] at h
      simp at h
    · by_cases hax : af x < 0
      · simp only [requestLoop, if_neg hcx, if_pos hax] at h
        simp at h
        subst h
        exact List.mem_cons_self _ _
      · simp only [requestLoop, if_neg hcx, if_neg hax] at h
        simp at h
        rcases h with h | h
        · subst h
          exact List.mem_cons_self _ _
        · exact List.mem_cons_of_mem _ (ih h)

theorem requestLoop_countEv_create (cf : Nat → Bool) (af : Nat → Int) (i : Nat)
    (l : List Nat) (hnd : l.Nodup) :
    countEv (Event.createRequest i) (requestLoop cf af l).trace ≤ 1 := by
  induction l with
  | nil => simp [requestLoop, countEv]
  | cons x t ih =>
    obtain ⟨hx_notin, hnd_t⟩ := List.nodup_cons.mp hnd
    by_cases hcx : cf x = false
    · simp only [requestLoop, if_pos hcx]
      simp only [countEv, List.count_cons, List.count_nil, beq_iff_eq]
      split_ifs <;> simp_all
    · by_cases hax : af x < 0
      · simp only [requestLoop, if_neg hcx, if_pos hax]
        simp only [countEv, List.count_cons, List.count_nil, beq_iff_eq]
        split_ifs <;> simp_all
      · simp only [requestLoop, if_neg hcx, if_neg hax]
        simp only [countEv, List.count_cons, beq_iff_eq] at ih ⊢
        by_cases hxi : x = i
        · have hz : List.count (Event.createRequest i)
              (requestLoop cf af t).trace = 0 := by
            rw [List.count_eq_zero]
            intro hmem
            have := requestLoop_create_mem cf af i t hmem
            rw [hxi] at hx_notin
            exact hx_notin this
          simp [hz, hxi]
        · have hb := ih hnd_t
          simp [hxi]
          omega

theorem requestLoop_countEv_addBuffer (cf : Nat → Bool) (af : Nat → Int) (i : Nat)
    (l : List Nat) (hnd : l.Nodup) :
    countEv (Event.addBuffer i) (requestLoop cf af l).trace ≤ 1 := by
  induction l with
  | nil => simp [requestLoop, countEv]
  | cons x t ih =>
    obtain ⟨hx_notin, hnd_t⟩ := List.nodup_cons.mp hnd
    by_cases hcx : cf x = false
    · simp only [requestLoop, if_pos hcx]
      simp only [countEv, List.count_cons, List.count_nil, beq_iff_eq]
      split_ifs <;> simp_all
    · by_cases hax : af x < 0
      · simp only [requestLoop, if_neg hcx, if_pos hax]
        simp only [countEv, List.count_cons, List.count_nil, beq_iff_eq]
        split_ifs <;> simp_all
      · simp only [requestLoop, if_neg hcx, if_neg hax]
        simp only [countEv, List.count_cons, beq_iff_eq] at ih ⊢
        by_cases hxi : x = i
        · have hz : List.count (Event.addBuffer i)
              (requestLoop cf af t).trace = 0 := by
            rw [List.count_eq_zero]
            intro hmem
            have := requestLoop_addBuffer_mem cf af i t hmem
            rw [hxi] at hx_notin
            exact hx_notin this
          simp [hz, hxi]
        · have hb := ih hnd_t
          simp [hxi]
          omega

/-! ## Branch characterizations of start -/

theorem start_eq_noCameras (env : StartEnv) (h : env.cameras = []) :
    start env = ⟨listingTrace env
        ++ [Event.print "No cameras were identified on the system.", Event.cmStop],
      EXIT_FAILURE, []⟩ := by
  unfold start
  rw [h]

theorem start_eq_configFail (env : StartEnv) (c0 : CameraInfo) (t : List CameraInfo)
    (hc : env.cameras = c0 :: t) (h1 : env.configureRet1 ≠ 0) :
    start env = ⟨header1 env c0 ++ [Event.print "CONFIGURATION FAILED!"],
      EXIT_FAILURE, []⟩ := by
  unfold start
  rw [hc]
  simp [h1]

theorem start_eq_allocFail (env : StartEnv) (c0 : CameraInfo) (t : List CameraInfo)
    (hc : env.cameras = c0 :: t) (h1 : env.configureRet1 = 0)
    (ha : (allocLoop env.allocateRet env.allocatedCount env.streamIds).2 = false) :
    start env = ⟨header1 env c0 ++ header2 env
        ++ (allocLoop env.allocateRet env.allocatedCount env.streamIds).1,
      EXIT_FAILURE, []⟩ := by
  unfold start
  rw [hc]
  simp [h1, ha]

theorem start_eq_reqFail (env : StartEnv) (c0 : CameraInfo) (t : List CameraInfo)
    (hc : env.cameras = c0 :: t) (h1 : env.configureRet1 = 0)
    (ha : (allocLoop env.allocateRet env.allocatedCount env.streamIds).2 = true)
    (hr : (requestLoop env.createRequestOk env.addBufferRet
        (List.range env.numBuffers)).ok = false) :
    start env = ⟨header1 env c0 ++ header2 env
        ++ (allocLoop env.allocateRet env.allocatedCount env.streamIds).1
        ++ (requestLoop env.createRequestOk env.addBufferRet
            (List.range env.numBuffers)).trace,
      EXIT_FAILURE, []⟩ := by
  unfold start
  rw [hc]
  simp [h1, ha, hr]

theorem start_eq_success (env : StartEnv) (c0 : CameraInfo) (t : List CameraInfo)
    (hc : env.cameras = c0 :: t) (h1 : env.configureRet1 = 0)
    (ha : (allocLoop env.allocateRet env.allocatedCount env.streamIds).2 = true)
    (hr : (requestLoop env.createRequestOk env.addBufferRet
        (List.range env.numBuffers)).ok = true) :
    start env = ⟨header1 env c0 ++ header2 env
        ++ (allocLoop env.allocateRet env.allocatedCount env.streamIds).1
        ++ (requestLoop env.createRequestOk env.addBufferRet
            (List.range env.numBuffers)).trace
        ++ [Event.connectRequestCompleted, Event.cameraStart],
      EXIT_SUCCESS,
      (requestLoop env.createRequestOk env.addBufferRet
          (List.range env.numBuffers)).pushed⟩ := by
  unfold start
  rw [hc]
  simp [h1, ha, hr]

/-! ## Membership facts about the fixed trace segments -/

theorem not_mem_listing (env : StartEnv) (e : Event) (h1 : e ≠ Event.cmStart)
    (h2 : ∀ s, e ≠ Event.print s) : e ∉ listingTrace env := by
  intro hm
  rcases List.mem_cons.mp hm with hm | hm
  · exact h1 hm
  · obtain ⟨c, _, hc⟩ := List.mem_map.mp hm
    exact h2 _ hc.symm

theorem not_mem_header1 (env : StartEnv) (c0 : CameraInfo) (e : Event)
    (h1 : e ≠ Event.cmStart) (h2 : ∀ s, e ≠ Event.print s)
    (h3 : ∀ s, e ≠ Event.getCamera s) (h4 : e ≠ Event.acquire)
    (h5 : e ≠ Event.generateConfiguration) (h6 : e ≠ Event.setWidth 2592)
    (h7 : e ≠ Event.setHeight 1944) (h8 : e ≠ Event.configure true) :
    e ∉ header1 env c0 := by
  intro hm
  rcases List.mem_append.mp hm with hm | hm
  · exact not_mem_listing env e h1 h2 hm
  · simp only [List.mem_cons, List.not_mem_nil, or_false] at hm
    rcases hm with hm | hm | hm | hm | hm | hm | hm
    exacts [h3 _ hm, h4 hm, h5 hm, h2 _ hm, h6 hm, h7 hm, h8 hm]

theorem not_mem_header2 (env : StartEnv) (e : Event)
    (h2 : ∀ s, e ≠ Event.print s) (h3 : e ≠ Event.validate)
    (h4 : e ≠ Event.configure false) (h5 : e ≠ Event.newAllocator) :
    e ∉ header2 env := by
  intro hm
  unfold header2 at hm
  rcases List.mem_append.mp hm with hm | hm
  swap
  · simp only [List.mem_cons, List.not_mem_nil, or_false] at hm
    exact h5 hm
  rcases List.mem_append.mp hm with hm | hm
  swap
  · obtain ⟨p, _, hp⟩ := List.mem_map.mp hm
    exact h2 _ hp.symm
  rcases List.mem_append.mp hm with hm | hm
  swap
  · simp only [List.mem_cons, List.not_mem_nil, or_false] at hm
    exact h2 _ hm
  rcases List.mem_append.mp hm with hm | hm
  swap
  · obtain ⟨c, _, hc⟩ := List.mem_map.mp hm
    exact h2 _ hc.symm
  simp only [List.mem_cons, List.not_mem_nil, or_false] at hm
  rcases hm with hm | hm | hm | hm
  exacts [h3 hm, h2 _ hm, h4 hm, h2 _ hm]

theorem countEv_eq_zero {e : Event} {tr : List Event} (h : e ∉ tr) :
    countEv e tr = 0 :=
  List.count_eq_zero.mpr h

theorem countEv_append (e : Event) (a b : List Event) :
    countEv e (a ++ b) = countEv e a + countEv e b := by
  simp [countEv, List.count_append]

theorem countEv_configure_true_header1 (env : StartEnv) (c0 : CameraInfo) :
    countEv (Event.configure true) (header1 env c0) = 1 := by
  unfold header1
  rw [countEv_append,
    countEv_eq_zero (not_mem_listing env _ (by simp) (by simp))]
  simp [countEv, List.count_cons]

theorem countEv_configure_true_header2 (env : StartEnv) :
    countEv (Event.configure true) (header2 env) = 0 :=
  countEv_eq_zero (not_mem_header2 env _ (by simp) (by simp) (by simp) (by simp))

theorem countEv_configure_false_header1 (env : StartEnv) (c0 : CameraInfo) :
    countEv (Event.configure false) (header1 env c0) = 0 :=
  countEv_eq_zero (not_mem_header1 env c0 _ (by simp) (by simp) (by simp)
    (by simp) (by simp) (by simp) (by simp) (by simp))

theorem countEv_configure_false_header2 (env : StartEnv) :
    countEv (Event.configure false) (header2 env) = 1 := by
  unfold header2
  rw [countEv_append, countEv_append, countEv_append, countEv_append]
  have hm1 : Event.configure false ∉ env.controls.map (fun c => Event.print (controlLine c)) := by
    intro hm
    obtain ⟨c, _, hc⟩ := List.mem_map.mp hm
    simp at hc
  have hm2 : Event.configure false ∉ env.properties.map (fun p => Event.print (propLine p)) := by
    intro hm
    obtain ⟨p, _, hp⟩ := List.mem_map.mp hm
    simp at hp
  rw [countEv_eq_zero hm1, countEv_eq_zero hm2]
  simp [countEv, List.count_cons]

theorem configure_not_mem_allocLoop (f : Nat → Int) (g : Nat → Nat) (l : List Nat)
    (b : Bool) : Event.configure b ∉ (allocLoop f g l).1 := by
  intro hm
  rcases allocLoop_mem f g l _ hm with ⟨s, h⟩ | ⟨s, h⟩ | ⟨s, h⟩ <;> simp at h

theorem configure_not_mem_requestLoop (cf : Nat → Bool) (af : Nat → Int)
    (l : List Nat) (b : Bool) : Event.configure b ∉ (requestLoop cf af l).trace := by
  intro hm
  rcases requestLoop_mem cf af l _ hm with ⟨i, h⟩ | ⟨i, h⟩ | ⟨i, c, v, h⟩ | ⟨s, h⟩ <;>
    simp at h

theorem start_trace_cfgOk (env : StartEnv) (c0 : CameraInfo) (t : List CameraInfo)
    (hc : env.cameras = c0 :: t) (h1 : env.configureRet1 = 0) :
    ∃ rest, (start env).trace = header1 env c0 ++ header2 env ++ rest
      ∧ (∀ b, Event.configure b ∉ rest) := by
  have hnoc : ∀ (b : Bool), Event.configure b
      ∉ (allocLoop env.allocateRet env.allocatedCount env.streamIds).1 :=
    fun b => configure_not_mem_allocLoop _ _ _ b
  have hnor : ∀ (b : Bool), Event.configure b
      ∉ (requestLoop env.createRequestOk env.addBufferRet
          (List.range env.numBuffers)).trace :=
    fun b => configure_not_mem_requestLoop _ _ _ b
  by_cases ha : (allocLoop env.allocateRet env.allocatedCount env.streamIds).2 = false
  · exact ⟨(allocLoop env.allocateRet env.allocatedCount env.streamIds).1,
      by rw [start_eq_allocFail env c0 t hc h1 ha], hnoc⟩
  · have ha' : (allocLoop env.allocateRet env.allocatedCount env.streamIds).2 = true := by
      revert ha
      cases (allocLoop env.allocateRet env.allocatedCount env.streamIds).2 <;> simp
    by_cases hr : (requestLoop env.createRequestOk env.addBufferRet
        (List.range env.numBuffers)).ok = false
    · refine ⟨(allocLoop env.allocateRet env.allocatedCount env.streamIds).1
          ++ (requestLoop env.createRequestOk env.addBufferRet
              (List.range env.numBuffers)).trace,
        by rw [start_eq_reqFail env c0 t hc h1 ha' hr]; simp [List.append_assoc], ?_⟩
      intro b hm
      rcases List.mem_append.mp hm with hm | hm
      · exact hnoc b hm
      · exact hnor b hm
    · have hr' : (requestLoop env.createRequestOk env.addBufferRet
          (List.range env.numBuffers)).ok = true := by
        revert hr
        cases (requestLoop env.createRequestOk env.addBufferRet
          (List.range env.numBuffers)).ok <;> simp
      refine ⟨(allocLoop env.allocateRet env.allocatedCount env.streamIds).1
          ++ (requestLoop env.createRequestOk env.addBufferRet
              (List.range env.numBuffers)).trace
          ++ [Event.connectRequestCompleted, Event.cameraStart],
        by rw [start_eq_success env c0 t hc h1 ha' hr']; simp [List.append_assoc], ?_⟩
      intro b hm
      rcases List.mem_append.mp hm with hm | hm
      · rcases List.mem_append.mp hm with hm | hm
        · exact hnoc b hm
        · exact hnor b hm
      · simp at hm

/-- C10: `start` always overwrites the default viewfinder stream size with
width 2592 and height 1944 before any `camera->configure` call, and (when the
checked configure succeeds) applies the configuration twice — once before
`config->validate()` and once right after it, the second call's return value
being unchecked (the result of `start` does not depend on it at all). -/
theorem start_sets_size_and_configures_twice (env : StartEnv)
    (hcam : env.cameras ≠ []) :
    (∃ pre post, (start env).trace
        = pre ++ [Event.setWidth 2592, Event.setHeight 1944, Event.configure true] ++ post
        ∧ ∀ b, Event.configure b ∉ pre)
    ∧ (env.configureRet1 = 0 → ∃ pre post, (start env).trace
        = pre ++ [Event.configure true, Event.validate,
            Event.print ("Validated viewfinder configuration is: " ++ env.validatedCfgStr),
            Event.configure false] ++ post)
    ∧ countEv (Event.configure true) (start env).trace = 1
    ∧ countEv (Event.configure false) (start env).trace
        = (if env.configureRet1 = 0 then 1 else 0)
    ∧ (∀ x, start { env with configureRet2 := x } = start env) := by
  obtain ⟨c0, t, hc⟩ := List.exists_cons_of_ne_nil hcam
  have hpre0 : ∀ (b : Bool), Event.configure b
      ∉ (listingTrace env ++ [Event.getCamera c0.id, Event.acquire,
          Event.generateConfiguration,
          Event.print ("Default viewfinder configuration is: " ++ env.defaultCfgStr)]) := by
    intro b hm
    rcases List.mem_append.mp hm with hm | hm
    · exact not_mem_listing env _ (by simp) (by simp) hm
    · simp at hm
  have henv2 : ∀ x, start { env with configureRet2 := x } = start env := by
    intro x
    cases env
    rfl
  by_cases h1 : env.configureRet1 = 0
  · obtain ⟨rest, htr, hnc⟩ := start_trace_cfgOk env c0 t hc h1
    refine ⟨?_, ?_, ?_, ?_, henv2⟩
    · refine ⟨listingTrace env ++ [Event.getCamera c0.id, Event.acquire,
          Event.generateConfiguration,
          Event.print ("Default viewfinder configuration is: " ++ env.defaultCfgStr)],
        header2 env ++ rest, ?_, hpre0⟩
      rw [htr]
      simp [header1, List.append_assoc]
    · intro _
      refine ⟨listingTrace env ++ [Event.getCamera c0.id, Event.acquire,
          Event.generateConfiguration,
          Event.print ("Default viewfinder configuration is: " ++ env.defaultCfgStr),
          Event.setWidth 2592, Event.setHeight 1944],
        (Event.print "controls:"
          :: (env.controls.map (fun c => Event.print (controlLine c))
            ++ Event.print "properies:"
            :: (env.properties.map (fun p => Event.print (propLine p))
              ++ [Event.newAllocator]))) ++ rest, ?_⟩
      rw [htr]
      simp [header1, header2, List.append_assoc]
    · rw [htr, countEv_append, countEv_append, countEv_configure_true_header1,
        countEv_configure_true_header2, countEv_eq_zero (hnc true)]
    · rw [htr, countEv_append, countEv_append, countEv_configure_false_header1,
        countEv_configure_false_header2, countEv_eq_zero (hnc false), if_pos h1]
  · have hs := start_eq_configFail env c0 t hc h1
    refine ⟨?_, fun h => absurd h h1, ?_, ?_, henv2⟩
    · refine ⟨listingTrace env ++ [Event.getCamera c0.id, Event.acquire,
          Event.generateConfiguration,
          Event.print ("Default viewfinder configuration is: " ++ env.defaultCfgStr)],
        [Event.print "CONFIGURATION FAILED!"], ?_, hpre0⟩
      rw [hs]
      simp [header1, List.append_assoc]
    · rw [hs]
      show countEv (Event.configure true)
        (header1 env c0 ++ [Event.print "CONFIGURATION FAILED!"]) = 1
      rw [countEv_append, countEv_configure_true_header1]
      simp [countEv]
    · rw [hs, if_neg h1]
      show countEv (Event.configure false)
        (header1 env c0 ++ [Event.print "CONFIGURATION FAILED!"]) = 0
      rw [countEv_append, countEv_configure_false_header1]
      simp [countEv]

/-- Witness for C10 at the all-success environment. -/
theorem start_sets_size_and_configures_twice_witness :
    countEv (Event.configure true) (start demoEnv).trace = 1
    ∧ countEv (Event.configure false) (start demoEnv).trace = 1 := by
  have h := start_sets_size_and_configures_twice demoEnv (by decide)
  refine ⟨h.2.2.1, ?_⟩
  rw [h.2.2.2.1]
  decide

theorem not_mem_allocLoop (f : Nat → Int) (g : Nat → Nat) (l : List Nat) (e : Event)
    (h1 : ∀ s, e ≠ Event.allocate s) (h2 : ∀ s, e ≠ Event.print s)
    (h3 : ∀ s, e ≠ Event.printErr s) : e ∉ (allocLoop f g l).1 := by
  intro hm
  rcases allocLoop_mem f g l e hm with ⟨s, h⟩ | ⟨s, h⟩ | ⟨s, h⟩
  exacts [h1 s h, h2 s h, h3 s h]

theorem not_mem_requestLoop (cf : Nat → Bool) (af : Nat → Int) (l : List Nat) (e : Event)
    (h1 : ∀ i, e ≠ Event.createRequest i) (h2 : ∀ i, e ≠ Event.addBuffer i)
    (h3 : ∀ i c v, e ≠ Event.setControl i c v) (h4 : ∀ s, e ≠ Event.printErr s) :
    e ∉ (requestLoop cf af l).trace := by
  intro hm
  rcases requestLoop_mem cf af l e hm with ⟨i, h⟩ | ⟨i, h⟩ | ⟨i, c, v, h⟩ | ⟨s, h⟩
  exacts [h1 i h, h2 i h, h3 i c v h, h4 s h]

/-- C1: `start` returns `EXIT_FAILURE` exactly when one of the vendor calls
it checks fails — the camera list is empty, the checked `camera->configure`
returns nonzero, some `allocator->allocate` returns a negative value, some
`camera->createRequest` returns null, or some `request->addBuffer` returns a
negative value — and in every other case it returns `EXIT_SUCCESS`.  On a
failure it prints exactly one failure message and stops at that point (on
the empty-list path `cm->stop()` runs after the message); on success it
prints no failure message.  No checked call is ever retried: each
`allocate`, `createRequest` and `addBuffer` call happens at most once per
argument, and the checked `configure` call at most once. -/
theorem start_failure_iff (env : StartEnv) (hnd : env.streamIds.Nodup) :
    ((start env).ret = EXIT_FAILURE ↔ startFails env)
    ∧ ((start env).ret = EXIT_SUCCESS ↔ ¬ startFails env)
    ∧ ((start env).ret = EXIT_FAILURE →
        failMsgCount (start env).trace = 1 ∧ endsAtFailure (start env).trace)
    ∧ ((start env).ret = EXIT_SUCCESS → failMsgCount (start env).trace = 0)
    ∧ (∀ s, countEv (Event.allocate s) (start env).trace ≤ 1)
    ∧ (∀ i, countEv (Event.createRequest i) (start env).trace ≤ 1)
    ∧ (∀ i, countEv (Event.addBuffer i) (start env).trace ≤ 1)
    ∧ countEv (Event.configure true) (start env).trace ≤ 1 := by
  rcases hcc : env.cameras with _ | ⟨c0, t⟩
  · -- the camera list is empty
    have hs := start_eq_noCameras env hcc
    have htr : (start env).trace = listingTrace env
        ++ [Event.print "No cameras were identified on the system.", Event.cmStop] := by
      rw [hs]
    have hret : (start env).ret = EXIT_FAILURE := by rw [hs]
    have hF : startFails env := Or.inl hcc
    have hcount : ∀ e : Event, (∀ s, e ≠ Event.print s) → e ≠ Event.cmStart →
        e ≠ Event.cmStop → countEv e (start env).trace = 0 := by
      intro e hp h1 h2
      rw [htr, countEv_append, countEv_eq_zero (not_mem_listing env _ h1 hp)]
      have : e ∉ [Event.print "No cameras were identified on the system.", Event.cmStop] := by
        intro hm
        rcases List.mem_cons.mp hm with hm | hm
        · exact hp _ hm
        · simp only [List.mem_cons, List.not_mem_nil, or_false] at hm
          exact h2 hm
      rw [countEv_eq_zero this]
    refine ⟨⟨fun _ => hF, fun _ => hret⟩,
      ⟨fun h => absurd (hret ▸ h) (by decide), fun hn => absurd hF hn⟩, ?_, ?_, ?_, ?_, ?_, ?_⟩
    · intro _
      constructor
      · rw [htr, failMsgCount_append, failMsgCount_listing]
        decide
      · right
        exact ⟨listingTrace env, htr⟩
    · intro h
      exact absurd (hret ▸ h) (by decide)
    · intro s
      rw [hcount _ (by simp) (by simp) (by simp)]
      decide
    · intro i
      rw [hcount _ (by simp) (by simp) (by simp)]
      decide
    · intro i
      rw [hcount _ (by simp) (by simp) (by simp)]
      decide
    · rw [hcount _ (by simp) (by simp) (by simp)]
      decide
  · by_cases h1 : env.configureRet1 = 0
    swap
    · -- the checked configure call returns nonzero
      have hs := start_eq_configFail env c0 t hcc h1
      have htr : (start env).trace
          = header1 env c0 ++ [Event.print "CONFIGURATION FAILED!"] := by rw [hs]
      have hret : (start env).ret = EXIT_FAILURE := by rw [hs]
      have hF : startFails env := Or.inr (Or.inl h1)
      refine ⟨⟨fun _ => hF, fun _ => hret⟩,
        ⟨fun h => absurd (hret ▸ h) (by decide), fun hn => absurd hF hn⟩, ?_, ?_, ?_, ?_, ?_, ?_⟩
      · intro _
        constructor
        · rw [htr, failMsgCount_append, failMsgCount_header1]
          decide
        · left
          exact ⟨header1 env c0, Event.print "CONFIGURATION FAILED!", by decide, htr⟩
      · intro h
        exact absurd (hret ▸ h) (by decide)
      · intro s
        rw [htr, countEv_append, countEv_eq_zero (not_mem_header1 env c0 _ (by simp)
          (by simp) (by simp) (by simp) (by simp) (by simp) (by simp) (by simp))]
        simp [countEv]
      · intro i
        rw [htr, countEv_append, countEv_eq_zero (not_mem_header1 env c0 _ (by simp)
          (by simp) (by simp) (by simp) (by simp) (by simp) (by simp) (by simp))]
        simp [countEv]
      · intro i
        rw [htr, countEv_append, countEv_eq_zero (not_mem_header1 env c0 _ (by simp)
          (by simp) (by simp) (by simp) (by simp) (by simp) (by simp) (by simp))]
        simp [countEv]
      · rw [htr, countEv_append, countEv_configure_true_header1]
        simp [countEv]
    · by_cases ha2 : (allocLoop env.allocateRet env.allocatedCount env.streamIds).2 = true
      swap
      · -- some allocate call returns a negative value
        have ha : (allocLoop env.allocateRet env.allocatedCount env.streamIds).2 = false := by
          revert ha2
          cases (allocLoop env.allocateRet env.allocatedCount env.streamIds).2 <;> simp
        have hs := start_eq_allocFail env c0 t hcc h1 ha
        have htr : (start env).trace = header1 env c0 ++ header2 env
            ++ (allocLoop env.allocateRet env.allocatedCount env.streamIds).1 := by rw [hs]
        have hret : (start env).ret = EXIT_FAILURE := by rw [hs]
        have hF : startFails env := by
          refine Or.inr (Or.inr (Or.inl ?_))
          have hnall : ¬ ∀ s ∈ env.streamIds, ¬ env.allocateRet s < 0 := by
            intro hall
            have := (allocLoop_ok env.allocateRet env.allocatedCount env.streamIds).mpr hall
            rw [ha] at this
            cases this
          push_neg at hnall
          obtain ⟨s, hin, hlt⟩ := hnall
          exact ⟨s, hin, hlt⟩
        refine ⟨⟨fun _ => hF, fun _ => hret⟩,
          ⟨fun h => absurd (hret ▸ h) (by decide), fun hn => absurd hF hn⟩, ?_, ?_, ?_, ?_, ?_, ?_⟩
        · intro _
          constructor
          · rw [htr, failMsgCount_append, failMsgCount_append, failMsgCount_header1,
              failMsgCount_header2, allocLoop_count, ha]
            simp
          · left
            obtain ⟨pre, hpre⟩ := allocLoop_fail_shape env.allocateRet env.allocatedCount
              env.streamIds ha
            refine ⟨header1 env c0 ++ header2 env ++ pre,
              Event.printErr "Can't allocate buffers", by decide, ?_⟩
            rw [htr, hpre]
            simp [List.append_assoc]
        · intro h
          exact absurd (hret ▸ h) (by decide)
        · intro s
          rw [htr, countEv_append, countEv_append,
            countEv_eq_zero (not_mem_header1 env c0 _ (by simp) (by simp) (by simp)
              (by simp) (by simp) (by simp) (by simp) (by simp)),
            countEv_eq_zero (not_mem_header2 env _ (by simp) (by simp) (by simp) (by simp))]
          simpa using allocLoop_countEv env.allocateRet env.allocatedCount s env.streamIds hnd
        · intro i
          rw [htr, countEv_append, countEv_append,
            countEv_eq_zero (not_mem_header1 env c0 _ (by simp) (by simp) (by simp)
              (by simp) (by simp) (by simp) (by simp) (by simp)),
            countEv_eq_zero (not_mem_header2 env _ (by simp) (by simp) (by simp) (by simp)),
            countEv_eq_zero (not_mem_allocLoop _ _ _ _ (by simp) (by simp) (by simp))]
          decide
        · intro i
          rw [htr, countEv_append, countEv_append,
            countEv_eq_zero (not_mem_header1 env c0 _ (by simp) (by simp) (by simp)
              (by simp) (by simp) (by simp) (by simp) (by simp)),
            countEv_eq_zero (not_mem_header2 env _ (by simp) (by simp) (by simp) (by simp)),
            countEv_eq_zero (not_mem_allocLoop _ _ _ _ (by simp) (by simp) (by simp))]
          decide
        · rw [htr, countEv_append, countEv_append, countEv_configure_true_header1,
            countEv_configure_true_header2,
            countEv_eq_zero (configure_not_mem_allocLoop _ _ _ _)]
      · by_cases hr2 : (requestLoop env.createRequestOk env.addBufferRet
            (List.range env.numBuffers)).ok = true
        swap
        · -- some createRequest or addBuffer call fails
          have hr : (requestLoop env.createRequestOk env.addBufferRet
              (List.range env.numBuffers)).ok = false := by
            revert hr2
            cases (requestLoop env.createRequestOk env.addBufferRet
              (List.range env.numBuffers)).ok <;> simp
          have hs := start_eq_reqFail env c0 t hcc h1 ha2 hr
          have htr : (start env).trace = header1 env c0 ++ header2 env
              ++ (allocLoop env.allocateRet env.allocatedCount env.streamIds).1
              ++ (requestLoop env.createRequestOk env.addBufferRet
                  (List.range env.numBuffers)).trace := by rw [hs]
          have hret : (start env).ret = EXIT_FAILURE := by rw [hs]
          have hF : startFails env := by
            refine Or.inr (Or.inr (Or.inr ?_))
            have hnall : ¬ ∀ i ∈ List.range env.numBuffers,
                env.createRequestOk i = true ∧ ¬ env.addBufferRet i < 0 := by
              intro hall
              have := (requestLoop_ok env.createRequestOk env.addBufferRet
                (List.range env.numBuffers)).mpr hall
              rw [hr] at this
              cases this
            push_neg at hnall
            obtain ⟨i, hin, hcond⟩ := hnall
            refine ⟨i, List.mem_range.mp hin, ?_⟩
            by_cases hci : env.createRequestOk i = false
            · exact Or.inl hci
            · have hci2 : env.createRequestOk i = true := by
                revert hci
                cases env.createRequestOk i <;> simp
              exact Or.inr (hcond hci2)
          refine ⟨⟨fun _ => hF, fun _ => hret⟩,
            ⟨fun h => absurd (hret ▸ h) (by decide), fun hn => absurd hF hn⟩,
            ?_, ?_, ?_, ?_, ?_, ?_⟩
          · intro _
            constructor
            · rw [htr, failMsgCount_append, failMsgCount_append, failMsgCount_append,
                failMsgCount_header1, failMsgCount_header2, allocLoop_count, ha2,
                requestLoop_count, hr]
              simp
            · left
              obtain ⟨pre, e, he, hpre⟩ := requestLoop_fail_shape env.createRequestOk
                env.addBufferRet (List.range env.numBuffers) hr
              refine ⟨header1 env c0 ++ header2 env
                  ++ (allocLoop env.allocateRet env.allocatedCount env.streamIds).1
                  ++ pre, e, he, ?_⟩
              rw [htr, hpre]
              simp [List.append_assoc]
          · intro h
            exact absurd (hret ▸ h) (by decide)
          · intro s
            rw [htr, countEv_append, countEv_append, countEv_append,
              countEv_eq_zero (not_mem_header1 env c0 _ (by simp) (by simp) (by simp)
                (by simp) (by simp) (by simp) (by simp) (by simp)),
              countEv_eq_zero (not_mem_header2 env _ (by simp) (by simp) (by simp) (by simp)),
              countEv_eq_zero (not_mem_requestLoop _ _ _ _ (by simp) (by simp)
                (by simp) (by simp))]
            simpa using allocLoop_countEv env.allocateRet env.allocatedCount s
              env.streamIds hnd
          · intro i
            rw [htr, countEv_append, countEv_append, countEv_append,
              countEv_eq_zero (not_mem_header1 env c0 _ (by simp) (by simp) (by simp)
                (by simp) (by simp) (by simp) (by simp) (by simp)),
              countEv_eq_zero (not_mem_header2 env _ (by simp) (by simp) (by simp) (by simp)),
              countEv_eq_zero (not_mem_allocLoop _ _ _ _ (by simp) (by simp) (by simp))]
            simpa using requestLoop_countEv_create env.createRequestOk env.addBufferRet i
              (List.range env.numBuffers) (List.nodup_range env.numBuffers)
          · intro i
            rw [htr, countEv_append, countEv_append, countEv_append,
              countEv_eq_zero (not_mem_header1 env c0 _ (by simp) (by simp) (by simp)
                (by simp) (by simp) (by simp) (by simp) (by simp)),
              countEv_eq_zero (not_mem_header2 env _ (by simp) (by simp) (by simp) (by simp)),
              countEv_eq_zero (not_mem_allocLoop _ _ _ _ (by simp) (by simp) (by simp))]
            simpa using requestLoop_countEv_addBuffer env.createRequestOk env.addBufferRet i
              (List.range env.numBuffers) (List.nodup_range env.numBuffers)
          · rw [htr, countEv_append, countEv_append, countEv_append,
              countEv_configure_true_header1, countEv_configure_true_header2,
              countEv_eq_zero (configure_not_mem_allocLoop _ _ _ _),
              countEv_eq_zero (configure_not_mem_requestLoop _ _ _ _)]
        · -- every checked call succeeds
          have hs := start_eq_success env c0 t hcc h1 ha2 hr2
          have htr : (start env).trace = header1 env c0 ++ header2 env
              ++ (allocLoop env.allocateRet env.allocatedCount env.streamIds).1
              ++ (requestLoop env.createRequestOk env.addBufferRet
                  (List.range env.numBuffers)).trace
              ++ [Event.connectRequestCompleted, Event.cameraStart] := by rw [hs]
          have hret : (start env).ret = EXIT_SUCCESS := by rw [hs]
          have hnF : ¬ startFails env := by
            intro hF
            rcases hF with hF | hF | hF | hF
            · rw [hcc] at hF
              cases hF
            · exact hF h1
            · obtain ⟨s, hin, hlt⟩ := hF
              exact absurd hlt ((allocLoop_ok env.allocateRet env.allocatedCount
                env.streamIds).mp ha2 s hin)
            · obtain ⟨i, hin, hor⟩ := hF
              have hok := (requestLoop_ok env.createRequestOk env.addBufferRet
                (List.range env.numBuffers)).mp hr2 i (List.mem_range.mpr hin)
              rcases hor with hor | hor
              · rw [hok.1] at hor
                cases hor
              · exact hok.2 hor
          have htail : ∀ e : Event, e ≠ Event.connectRequestCompleted →
              e ≠ Event.cameraStart →
              e ∉ [Event.connectRequestCompleted, Event.cameraStart] := by
            intro e hA hB hm
            rcases List.mem_cons.mp hm with hm | hm
            · exact hA hm
            · simp only [List.mem_cons, List.not_mem_nil, or_false] at hm
              exact hB hm
          refine ⟨⟨fun h => absurd (hret ▸ h) (by decide), fun hF => absurd hF hnF⟩,
            ⟨fun _ => hnF, fun _ => hret⟩, ?_, ?_, ?_, ?_, ?_, ?_⟩
          · intro h
            exact absurd (hret ▸ h) (by decide)
          · intro _
            rw [htr, failMsgCount_append, failMsgCount_append, failMsgCount_append,
              failMsgCount_append, failMsgCount_header1, failMsgCount_header2,
              allocLoop_count, ha2, requestLoop_count, hr2]
            decide
          · intro s
            rw [htr, countEv_append, countEv_append, countEv_append, countEv_append,
              countEv_eq_zero (not_mem_header1 env c0 _ (by simp) (by simp) (by simp)
                (by simp) (by simp) (by simp) (by simp) (by simp)),
              countEv_eq_zero (not_mem_header2 env _ (by simp) (by simp) (by simp) (by simp)),
              countEv_eq_zero (not_mem_requestLoop _ _ _ _ (by simp) (by simp)
                (by simp) (by simp)),
              countEv_eq_zero (htail _ (by simp) (by simp))]
            simpa using allocLoop_countEv env.allocateRet env.allocatedCount s
              env.streamIds hnd
          · intro i
            rw [htr, countEv_append, countEv_append, countEv_append, countEv_append,
              countEv_eq_zero (not_mem_header1 env c0 _ (by simp) (by simp) (by simp)
                (by simp) (by simp) (by simp) (by simp) (by simp)),
              countEv_eq_zero (not_mem_header2 env _ (by simp) (by simp) (by simp) (by simp)),
              countEv_eq_zero (not_mem_allocLoop _ _ _ _ (by simp) (by simp) (by simp)),
              countEv_eq_zero (htail _ (by simp) (by simp))]
            simpa using requestLoop_countEv_create env.createRequestOk env.addBufferRet i
              (List.range env.numBuffers) (List.nodup_range env.numBuffers)
          · intro i
            rw [htr, countEv_append, countEv_append, countEv_append, countEv_append,
              countEv_eq_zero (not_mem_header1 env c0 _ (by simp) (by simp) (by simp)
                (by simp) (by simp) (by simp) (by simp) (by simp)),
              countEv_eq_zero (not_mem_header2 env _ (by simp) (by simp) (by simp) (by simp)),
              countEv_eq_zero (not_mem_allocLoop _ _ _ _ (by simp) (by simp) (by simp)),
              countEv_eq_zero (htail _ (by simp) (by simp))]
            simpa using requestLoop_countEv_addBuffer env.createRequestOk env.addBufferRet i
              (List.range env.numBuffers) (List.nodup_range env.numBuffers)
          · rw [htr, countEv_append, countEv_append, countEv_append, countEv_append,
              countEv_configure_true_header1, countEv_configure_true_header2,
              countEv_eq_zero (configure_not_mem_allocLoop _ _ _ _),
              countEv_eq_zero (configure_not_mem_requestLoop _ _ _ _),
              countEv_eq_zero (htail _ (by simp) (by simp))]

/-- Witness for C1: in the all-success environment start returns
`EXIT_SUCCESS` with no failure message; making the checked configure call
fail flips it to `EXIT_FAILURE`. -/
theorem start_failure_iff_witness :
    (start demoEnv).ret = EXIT_SUCCESS
    ∧ (start { demoEnv with configureRet1 := (-22 : Int) }).ret = EXIT_FAILURE := by
  constructor
  · exact (start_failure_iff demoEnv (by decide)).2.1.mpr (by
      intro hF
      rcases hF with hF | hF | ⟨s, hs, hlt⟩ | ⟨i, hi, hor⟩
      · simp [demoEnv] at hF
      · simp [demoEnv] at hF
      · simp [demoEnv] at hlt
      · simp [demoEnv] at hor)
  · exact (start_failure_iff { demoEnv with configureRet1 := (-22 : Int) }
      (by decide)).1.mpr (Or.inr (Or.inl (by decide)))
  
/-! ## Ordering machinery for the lifecycle claim -/

theorem get_congr_idx (l : List Event) (a b : Nat) (h1 : a < l.length)
    (h2 : b < l.length) (hab : a = b) : l.get ⟨a, h1⟩ = l.get ⟨b, h2⟩ := by
  subst hab
  rfl

theorem eventsBefore_split (p q : Event → Bool) (A B : List Event)
    (hpB : ∀ e ∈ B, p e = false) (hqA : ∀ e ∈ A, q e = false) :
    eventsBefore p q (A ++ B) := by
  intro i j hi hj hp hq
  by_cases hiA : i < A.length
  · by_cases hjA : j < A.length
    · exfalso
      have h1 : (A ++ B).get ⟨j, hj⟩ = A.get ⟨j, hjA⟩ := List.get_append j hjA
      rw [h1, hqA _ (A.get_mem _ _)] at hq
      cases hq
    · rw [List.length_append] at hj
      omega
  · exfalso
    have hge : A.length ≤ i := Nat.not_lt.mp hiA
    have hib : i - A.length < B.length := by
      rw [List.length_append] at hi
      omega
    have h1 : (A ++ B).get ⟨i, hi⟩ = B.get ⟨i - A.length, hib⟩ :=
      List.get_append_right A B hge
    rw [h1, hpB _ (B.get_mem _ _)] at hp
    cases hp

theorem requeuePreceded_of_not_mem (i : Nat) (tr : List Event)
    (h : Event.requeue i ∉ tr) : requeuePreceded i tr := by
  intro j hj hreq
  have hm := tr.get_mem j hj
  rw [hreq] at hm
  exact absurd hm h

theorem requeuePreceded_append (i : Nat) (A B : List Event)
    (hA : requeuePreceded i A) (hB : requeuePreceded i B) :
    requeuePreceded i (A ++ B) := by
  intro j hj hreq
  by_cases hjA : j < A.length
  · have h1 : (A ++ B).get ⟨j, hj⟩ = A.get ⟨j, hjA⟩ := List.get_append j hjA
    obtain ⟨k, hk, hkj, hcomp⟩ := hA j hjA (by rw [← h1]; exact hreq)
    have hk2 : k < (A ++ B).length := by
      rw [List.length_append]
      omega
    refine ⟨k, hk2, hkj, ?_⟩
    rw [List.get_append k hk]
    exact hcomp
  · have hge : A.length ≤ j := Nat.not_lt.mp hjA
    have hjB : j - A.length < B.length := by
      rw [List.length_append] at hj
      omega
    have h1 : (A ++ B).get ⟨j, hj⟩ = B.get ⟨j - A.length, hjB⟩ :=
      List.get_append_right A B hge
    obtain ⟨k, hk, hkj, hcomp⟩ := hB (j - A.length) hjB (by rw [← h1]; exact hreq)
    have hk2 : A.length + k < (A ++ B).length := by
      rw [List.length_append]
      omega
    refine ⟨A.length + k, hk2, by omega, ?_⟩
    have hk3 : A.length + k - A.length < B.length := by omega
    rw [List.get_append_right A B (Nat.le_add_right _ _),
      get_congr_idx B _ _ hk3 hk (by omega)]
    exact hcomp

/-! ## What the completion path traces contain -/

theorem mem_bufferOuts (bs : List BufferData) (e : Event)
    (h : e ∈ (bs.map bufferOut).flatten) :
    (∃ s, e = Event.print s) ∨ (∃ p img, e = Event.imwrite p img) := by
  induction bs with
  | nil => simp at h
  | cons b t ih =>
    simp only [List.map_cons, List.flatten_cons] at h
    rcases List.mem_append.mp h with h | h
    · simp only [bufferOut, List.mem_cons, List.not_mem_nil, or_false] at h
      rcases h with h | h
      · exact Or.inl ⟨_, h⟩
      · exact Or.inr ⟨_, _, h⟩
    · exact ih h

theorem requeue_mem_processRequest (r : Request) (i : Nat)
    (h : Event.requeue i ∈ processRequest r) : i = r.id := by
  unfold processRequest at h
  rcases List.mem_append.mp h with h | h
  · rcases mem_bufferOuts r.buffers _ h with ⟨s, hs⟩ | ⟨p, img, hp⟩
    · cases hs
    · cases hp
  · simp only [List.mem_cons, List.not_mem_nil, or_false] at h
    rcases h with h | h
    · cases h
    · exact Event.requeue.inj h

theorem mem_processRequest (r : Request) (e : Event) (h : e ∈ processRequest r) :
    (∃ s, e = Event.print s) ∨ (∃ p img, e = Event.imwrite p img)
      ∨ e = Event.reuse r.id ∨ e = Event.requeue r.id := by
  unfold processRequest at h
  rcases List.mem_append.mp h with h | h
  · rcases mem_bufferOuts r.buffers _ h with h | h
    · exact Or.inl h
    · exact Or.inr (Or.inl h)
  · simp only [List.mem_cons, List.not_mem_nil, or_false] at h
    rcases h with h | h
    · exact Or.inr (Or.inr (Or.inl h))
    · exact Or.inr (Or.inr (Or.inr h))

theorem mem_deliver (r : Request) (e : Event) (h : e ∈ deliver r) :
    e = Event.complete r.id ∨ (∃ s, e = Event.print s)
      ∨ (∃ p img, e = Event.imwrite p img)
      ∨ e = Event.reuse r.id ∨ e = Event.requeue r.id := by
  unfold deliver at h
  rcases List.mem_cons.mp h with h | h
  · exact Or.inl h
  · by_cases hst : r.status = RequestStatus.requestCancelled
    · simp [requestComplete, hst] at h
    · simp only [requestComplete, if_neg hst, List.map_cons, List.map_nil,
        List.flatten_cons, List.flatten_nil, List.append_nil, runEffect] at h
      exact Or.inr (mem_processRequest r e h)

theorem mem_flat_deliver (l : List Request) (e : Event)
    (h : e ∈ (l.map deliver).flatten) : ∃ r ∈ l, e ∈ deliver r := by
  obtain ⟨blk, hblk, hein⟩ := List.mem_flatten.mp h
  obtain ⟨r, hr, rfl⟩ := List.mem_map.mp hblk
  exact ⟨r, hr, hein⟩

theorem requeuePreceded_deliver (r : Request) (i : Nat) :
    requeuePreceded i (deliver r) := by
  intro j hj hreq
  match j with
  | 0 =>
    rw [show (deliver r).get ⟨0, hj⟩ = Event.complete r.id from rfl] at hreq
    cases hreq
  | k + 1 =>
    have hjb : k < ((requestComplete r).map runEffect).flatten.length := by
      simp only [deliver, List.length_cons] at hj
      omega
    have hget : ((requestComplete r).map runEffect).flatten.get ⟨k, hjb⟩
        = Event.requeue i := hreq
    have hmem : Event.requeue i ∈ ((requestComplete r).map runEffect).flatten := by
      rw [← hget]
      exact List.get_mem _ _ _
    have hid : i = r.id := by
      by_cases hst : r.status = RequestStatus.requestCancelled
      · simp [requestComplete, hst] at hmem
      · simp only [requestComplete, if_neg hst, List.map_cons, List.map_nil,
          List.flatten_cons, List.flatten_nil, List.append_nil, runEffect] at hmem
        exact requeue_mem_processRequest r i hmem
    refine ⟨0, by simp [deliver], by omega, ?_⟩
    rw [show (deliver r).get ⟨0, by simp [deliver]⟩ = Event.complete r.id from rfl, hid]

theorem requeuePreceded_flat (l : List Request) (i : Nat) :
    requeuePreceded i ((l.map deliver).flatten) := by
  induction l with
  | nil =>
    intro j hj
    simp at hj
  | cons r t ih =>
    simp only [List.map_cons, List.flatten_cons]
    exact requeuePreceded_append i _ _ (requeuePreceded_deliver r i) ih

/-! ## Classifier plumbing: which segments contain which event kinds -/

theorem classifier_append {p : Event → Bool} {A B : List Event}
    (hA : ∀ e ∈ A, p e = false) (hB : ∀ e ∈ B, p e = false) :
    ∀ e ∈ A ++ B, p e = false := by
  intro e he
  rcases List.mem_append.mp he with h | h
  exacts [hA e h, hB e h]

theorem listing_classifier (env : StartEnv) (p : Event → Bool)
    (h1 : p Event.cmStart = false) (h2 : ∀ s, p (Event.print s) = false) :
    ∀ e ∈ listingTrace env, p e = false := by
  intro e he
  rcases List.mem_cons.mp he with he | he
  · subst he
    exact h1
  · obtain ⟨c, _, hc⟩ := List.mem_map.mp he
    rw [← hc]
    exact h2 _

theorem header1_classifier (env : StartEnv) (c0 : CameraInfo) (p : Event → Bool)
    (h1 : p Event.cmStart = false) (h2 : ∀ s, p (Event.print s) = false)
    (h3 : ∀ s, p (Event.getCamera s) = false) (h4 : p Event.acquire = false)
    (h5 : p Event.generateConfiguration = false)
    (h6 : ∀ w, p (Event.setWidth w) = false) (h7 : ∀ h, p (Event.setHeight h) = false)
    (h8 : ∀ b, p (Event.configure b) = false) :
    ∀ e ∈ header1 env c0, p e = false := by
  refine classifier_append (listing_classifier env p h1 h2) ?_
  intro e he
  simp only [List.mem_cons, List.not_mem_nil, or_false] at he
  rcases he with he | he | he | he | he | he | he <;> subst he
  exacts [h3 _, h4, h5, h2 _, h6 _, h7 _, h8 _]

theorem header2_classifier (env : StartEnv) (p : Event → Bool)
    (h2 : ∀ s, p (Event.print s) = false) (h3 : p Event.validate = false)
    (h4 : ∀ b, p (Event.configure b) = false) (h5 : p Event.newAllocator = false) :
    ∀ e ∈ header2 env, p e = false := by
  intro e he
  by_cases hchar : ∀ s, e ≠ Event.print s
  · have := not_mem_header2 env e hchar
    by_contra hne
    exact absurd he (this (by
      intro hv
      subst hv
      rw [h3] at hne
      exact hne rfl) (by
      intro hv
      subst hv
      rw [h4 false] at hne
      exact hne rfl) (by
      intro hv
      subst hv
      rw [h5] at hne
      exact hne rfl))
  · push_neg at hchar
    obtain ⟨s, hs⟩ := hchar
    subst hs
    exact h2 _

theorem allocLoop_classifier (f : Nat → Int) (g : Nat → Nat) (l : List Nat)
    (p : Event → Bool) (h1 : ∀ s, p (Event.allocate s) = false)
    (h2 : ∀ s, p (Event.print s) = false) (h3 : ∀ s, p (Event.printErr s) = false) :
    ∀ e ∈ (allocLoop f g l).1, p e = false := by
  intro e he
  rcases allocLoop_mem f g l e he with ⟨s, h⟩ | ⟨s, h⟩ | ⟨s, h⟩ <;> subst h
  exacts [h1 _, h2 _, h3 _]

theorem requestLoop_classifier (cf : Nat → Bool) (af : Nat → Int) (l : List Nat)
    (p : Event → Bool) (h1 : ∀ i, p (Event.createRequest i) = false)
    (h2 : ∀ i, p (Event.addBuffer i) = false)
    (h3 : ∀ i c v, p (Event.setControl i c v) = false)
    (h4 : ∀ s, p (Event.printErr s) = false) :
    ∀ e ∈ (requestLoop cf af l).trace, p e = false := by
  intro e he
  rcases requestLoop_mem cf af l e he with ⟨i, h⟩ | ⟨i, h⟩ | ⟨i, c, v, h⟩ | ⟨s, h⟩ <;>
    subst h
  exacts [h1 _, h2 _, h3 _ _ _, h4 _]

theorem flat_classifier (l : List Request) (p : Event → Bool)
    (h1 : ∀ i, p (Event.complete i) = false) (h2 : ∀ s, p (Event.print s) = false)
    (h3 : ∀ a b, p (Event.imwrite a b) = false) (h4 : ∀ i, p (Event.reuse i) = false)
    (h5 : ∀ i, p (Event.requeue i) = false) :
    ∀ e ∈ (l.map deliver).flatten, p e = false := by
  intro e he
  obtain ⟨r, _, hin⟩ := mem_flat_deliver l e he
  rcases mem_deliver r e hin with h | ⟨s, h⟩ | ⟨a, b, h⟩ | h | h <;> subst h
  exacts [h1 _, h2 _, h3 _ _, h4 _, h5 _]

theorem queueMap_classifier (reqs : List Nat) (p : Event → Bool)
    (h : ∀ i, p (Event.queueRequest i) = false) :
    ∀ e ∈ reqs.map Event.queueRequest, p e = false := by
  intro e he
  obtain ⟨i, _, hi⟩ := List.mem_map.mp he
  rw [← hi]
  exact h _

theorem start_success_inv (env : StartEnv) (h : (start env).ret = EXIT_SUCCESS) :
    ∃ c0 t, env.cameras = c0 :: t ∧ env.configureRet1 = 0
      ∧ (allocLoop env.allocateRet env.allocatedCount env.streamIds).2 = true
      ∧ (requestLoop env.createRequestOk env.addBufferRet
          (List.range env.numBuffers)).ok = true := by
  rcases hcc : env.cameras with _ | ⟨c0, t⟩
  · have hret : (start env).ret = EXIT_FAILURE := by rw [start_eq_noCameras env hcc]
    rw [hret] at h
    exact absurd h (by decide)
  · by_cases h1 : env.configureRet1 = 0
    swap
    · have hret : (start env).ret = EXIT_FAILURE := by
        rw [start_eq_configFail env c0 t hcc h1]
      rw [hret] at h
      exact absurd h (by decide)
    · by_cases ha : (allocLoop env.allocateRet env.allocatedCount env.streamIds).2 = true
      swap
      · have ha2 : (allocLoop env.allocateRet env.allocatedCount env.streamIds).2 = false := by
          revert ha
          cases (allocLoop env.allocateRet env.allocatedCount env.streamIds).2 <;> simp
        have hret : (start env).ret = EXIT_FAILURE := by
          rw [start_eq_allocFail env c0 t hcc h1 ha2]
        rw [hret] at h
        exact absurd h (by decide)
      · by_cases hr : (requestLoop env.createRequestOk env.addBufferRet
            (List.range env.numBuffers)).ok = true
        swap
        · have hr2 : (requestLoop env.createRequestOk env.addBufferRet
              (List.range env.numBuffers)).ok = false := by
            revert hr
            cases (requestLoop env.createRequestOk env.addBufferRet
              (List.range env.numBuffers)).ok <;> simp
          have hret : (start env).ret = EXIT_FAILURE := by
            rw [start_eq_reqFail env c0 t hcc h1 ha hr2]
          rw [hret] at h
          exact absurd h (by decide)
        · exact ⟨c0, t, rfl, h1, ha, hr⟩

theorem not_mem_of_classifier {p : Event → Bool} {tr : List Event}
    (h : ∀ e ∈ tr, p e = false) {e : Event} (hpe : p e = true) : e ∉ tr := by
  intro hm
  rw [h e hm] at hpe
  cases hpe

/-- C3: in a run in which `start` succeeded, the request lifecycle is
ordered as acquire → configure → allocate → queue → complete → requeue →
release: every acquire precedes every configure call, every configure call
precedes every allocate call, every allocate precedes every queue, every
queue precedes every completion; `go` queues every request `start` created;
for every non-cancelled completed request the run contains its buffer reuse
and its requeue; a request is never requeued before a completion of that
request; and every requeue precedes the camera release of `finish`. -/
theorem run_lifecycle_order (env : StartEnv) (genv : GoEnv)
    (hsucc : (start env).ret = EXIT_SUCCESS) :
    eventsBefore isAcquireEv isConfigureEv (run env genv)
    ∧ eventsBefore isConfigureEv isAllocateEv (run env genv)
    ∧ eventsBefore isAllocateEv isQueueEv (run env genv)
    ∧ eventsBefore isQueueEv isCompleteEv (run env genv)
    ∧ (∀ i ∈ (start env).requests, Event.queueRequest i ∈ run env genv)
    ∧ (∀ r ∈ genv.completions, r.status ≠ RequestStatus.requestCancelled →
        Event.reuse r.id ∈ run env genv ∧ Event.requeue r.id ∈ run env genv)
    ∧ (∀ i, requeuePreceded i (run env genv))
    ∧ eventsBefore isRequeueEv isReleaseEv (run env genv) := by
  obtain ⟨c0, t, hcc, h1, ha, hr⟩ := start_success_inv env hsucc
  have hs := start_eq_success env c0 t hcc h1 ha hr
  have htr : (start env).trace = header1 env c0 ++ header2 env
      ++ (allocLoop env.allocateRet env.allocatedCount env.streamIds).1
      ++ (requestLoop env.createRequestOk env.addBufferRet
          (List.range env.numBuffers)).trace
      ++ [Event.connectRequestCompleted, Event.cameraStart] := by rw [hs]
  have hrun : run env genv = (start env).trace
      ++ ((start env).requests.map Event.queueRequest
        ++ [Event.loopTimeout 3]
        ++ (genv.completions.map deliver).flatten
        ++ [Event.print (goMsg genv.execRet)])
      ++ finishTrace := by
    simp only [run]
    rw [if_pos hsucc]
    rfl
  refine ⟨?_, ?_, ?_, ?_, ?_, ?_, ?_, ?_⟩
  · -- acquire before configure
    have hAB : run env genv
        = (listingTrace env ++ [Event.getCamera c0.id, Event.acquire])
          ++ ([Event.generateConfiguration,
              Event.print ("Default viewfinder configuration is: " ++ env.defaultCfgStr),
              Event.setWidth 2592, Event.setHeight 1944, Event.configure true]
            ++ (header2 env
              ++ ((allocLoop env.allocateRet env.allocatedCount env.streamIds).1
                ++ ((requestLoop env.createRequestOk env.addBufferRet
                      (List.range env.numBuffers)).trace
                  ++ ([Event.connectRequestCompleted, Event.cameraStart]
                    ++ ((start env).requests.map Event.queueRequest
                      ++ ([Event.loopTimeout 3]
                        ++ ((genv.completions.map deliver).flatten
                          ++ ([Event.print (goMsg genv.execRet)]
                            ++ finishTrace))))))))) := by
      rw [hrun, htr]
      simp [header1, List.append_assoc]
    rw [hAB]
    refine eventsBefore_split _ _ _ _ ?_ ?_
    · refine classifier_append (by intro e he; fin_cases he <;> rfl)
        (classifier_append (header2_classifier env _ (fun _ => rfl) rfl (fun _ => rfl) rfl)
        (classifier_append (allocLoop_classifier _ _ _ _ (fun _ => rfl) (fun _ => rfl)
            (fun _ => rfl))
        (classifier_append (requestLoop_classifier _ _ _ _ (fun _ => rfl) (fun _ => rfl)
            (fun _ _ _ => rfl) (fun _ => rfl))
        (classifier_append (by intro e he; fin_cases he <;> rfl)
        (classifier_append (queueMap_classifier _ _ (fun _ => rfl))
        (classifier_append (by intro e he; fin_cases he <;> rfl)
        (classifier_append (flat_classifier _ _ (fun _ => rfl) (fun _ => rfl)
            (fun _ _ => rfl) (fun _ => rfl) (fun _ => rfl))
        (classifier_append (by intro e he; fin_cases he <;> rfl)
          (by intro e he; simp only [finishTrace] at he; fin_cases he <;> rfl)))))))))
    · exact classifier_append (listing_classifier env _ rfl (fun _ => rfl))
        (by intro e he; fin_cases he <;> rfl)
  · -- configure before allocate
    have hAB : run env genv
        = (header1 env c0 ++ header2 env)
          ++ ((allocLoop env.allocateRet env.allocatedCount env.streamIds).1
            ++ ((requestLoop env.createRequestOk env.addBufferRet
                  (List.range env.numBuffers)).trace
              ++ ([Event.connectRequestCompleted, Event.cameraStart]
                ++ ((start env).requests.map Event.queueRequest
                  ++ ([Event.loopTimeout 3]
                    ++ ((genv.completions.map deliver).flatten
                      ++ ([Event.print (goMsg genv.execRet)]
                        ++ finishTrace))))))) := by
      rw [hrun, htr]
      simp [List.append_assoc]
    rw [hAB]
    refine eventsBefore_split _ _ _ _ ?_ ?_
    · refine classifier_append (allocLoop_classifier _ _ _ _ (fun _ => rfl) (fun _ => rfl)
          (fun _ => rfl))
        (classifier_append (requestLoop_classifier _ _ _ _ (fun _ => rfl) (fun _ => rfl)
            (fun _ _ _ => rfl) (fun _ => rfl))
        (classifier_append (by intro e he; fin_cases he <;> rfl)
        (classifier_append (queueMap_classifier _ _ (fun _ => rfl))
        (classifier_append (by intro e he; fin_cases he <;> rfl)
        (classifier_append (flat_classifier _ _ (fun _ => rfl) (fun _ => rfl)
            (fun _ _ => rfl) (fun _ => rfl) (fun _ => rfl))
        (classifier_append (by intro e he; fin_cases he <;> rfl)
          (by intro e he; simp only [finishTrace] at he; fin_cases he <;> rfl)))))))
    · exact classifier_append (header1_classifier env c0 _ rfl (fun _ => rfl)
          (fun _ => rfl) rfl rfl (fun _ => rfl) (fun _ => rfl) (fun _ => rfl))
        (header2_classifier env _ (fun _ => rfl) rfl (fun _ => rfl) rfl)
  · -- allocate before queue
    have hAB : run env genv
        = (header1 env c0 ++ (header2 env
            ++ (allocLoop env.allocateRet env.allocatedCount env.streamIds).1))
          ++ ((requestLoop env.createRequestOk env.addBufferRet
                (List.range env.numBuffers)).trace
            ++ ([Event.connectRequestCompleted, Event.cameraStart]
              ++ ((start env).requests.map Event.queueRequest
                ++ ([Event.loopTimeout 3]
                  ++ ((genv.completions.map deliver).flatten
                    ++ ([Event.print (goMsg genv.execRet)]
                      ++ finishTrace)))))) := by
      rw [hrun, htr]
      simp [List.append_assoc]
    rw [hAB]
    refine eventsBefore_split _ _ _ _ ?_ ?_
    · refine classifier_append (requestLoop_classifier _ _ _ _ (fun _ => rfl) (fun _ => rfl)
          (fun _ _ _ => rfl) (fun _ => rfl))
        (classifier_append (by intro e he; fin_cases he <;> rfl)
        (classifier_append (queueMap_classifier _ _ (fun _ => rfl))
        (classifier_append (by intro e he; fin_cases he <;> rfl)
        (classifier_append (flat_classifier _ _ (fun _ => rfl) (fun _ => rfl)
            (fun _ _ => rfl) (fun _ => rfl) (fun _ => rfl))
        (classifier_append (by intro e he; fin_cases he <;> rfl)
          (by intro e he; simp only [finishTrace] at he; fin_cases he <;> rfl))))))
    · exact classifier_append (header1_classifier env c0 _ rfl (fun _ => rfl)
          (fun _ => rfl) rfl rfl (fun _ => rfl) (fun _ => rfl) (fun _ => rfl))
        (classifier_append (header2_classifier env _ (fun _ => rfl) rfl (fun _ => rfl) rfl)
          (allocLoop_classifier _ _ _ _ (fun _ => rfl) (fun _ => rfl) (fun _ => rfl)))
  · -- queue before complete
    have hAB : run env genv
        = (header1 env c0 ++ (header2 env
            ++ ((allocLoop env.allocateRet env.allocatedCount env.streamIds).1
              ++ ((requestLoop env.createRequestOk env.addBufferRet
                    (List.range env.numBuffers)).trace
                ++ ([Event.connectRequestCompleted, Event.cameraStart]
                  ++ ((start env).requests.map Event.queueRequest
                    ++ [Event.loopTimeout 3]))))))
          ++ ((genv.completions.map deliver).flatten
            ++ ([Event.print (goMsg genv.execRet)] ++ finishTrace)) := by
      rw [hrun, htr]
      simp [List.append_assoc]
    rw [hAB]
    refine eventsBefore_split _ _ _ _ ?_ ?_
    · refine classifier_append (flat_classifier _ _ (fun _ => rfl) (fun _ => rfl)
          (fun _ _ => rfl) (fun _ => rfl) (fun _ => rfl))
        (classifier_append (by intro e he; fin_cases he <;> rfl)
          (by intro e he; simp only [finishTrace] at he; fin_cases he <;> rfl))
    · refine classifier_append (header1_classifier env c0 _ rfl (fun _ => rfl)
          (fun _ => rfl) rfl rfl (fun _ => rfl) (fun _ => rfl) (fun _ => rfl))
        (classifier_append (header2_classifier env _ (fun _ => rfl) rfl (fun _ => rfl) rfl)
        (classifier_append (allocLoop_classifier _ _ _ _ (fun _ => rfl) (fun _ => rfl)
            (fun _ => rfl))
        (classifier_append (requestLoop_classifier _ _ _ _ (fun _ => rfl) (fun _ => rfl)
            (fun _ _ _ => rfl) (fun _ => rfl))
        (classifier_append (by intro e he; fin_cases he <;> rfl)
        (classifier_append (queueMap_classifier _ _ (fun _ => rfl))
          (by intro e he; fin_cases he <;> rfl))))))
  · -- go queues every created request
    intro i hi
    rw [hrun]
    exact List.mem_append_left _ (List.mem_append_right _
      (List.mem_append_left _ (List.mem_append_left _ (List.mem_append_left _
        (List.mem_map.mpr ⟨i, hi, rfl⟩)))))
  · -- every non-cancelled completion is reused and requeued
    intro r hrc hst
    have hre : Event.reuse r.id ∈ deliver r := by
      simp [deliver, requestComplete, hst, runEffect, processRequest]
    have hrq : Event.requeue r.id ∈ deliver r := by
      simp [deliver, requestComplete, hst, runEffect, processRequest]
    have hf1 : Event.reuse r.id ∈ (genv.completions.map deliver).flatten :=
      List.mem_flatten.mpr ⟨deliver r, List.mem_map_of_mem _ hrc, hre⟩
    have hf2 : Event.requeue r.id ∈ (genv.completions.map deliver).flatten :=
      List.mem_flatten.mpr ⟨deliver r, List.mem_map_of_mem _ hrc, hrq⟩
    rw [hrun]
    exact ⟨List.mem_append_left _ (List.mem_append_right _
        (List.mem_append_left _ (List.mem_append_right _ hf1))),
      List.mem_append_left _ (List.mem_append_right _
        (List.mem_append_left _ (List.mem_append_right _ hf2)))⟩
  · -- never requeued before completed
    intro i
    rw [hrun, htr]
    have htail2 : ∀ e ∈ [Event.connectRequestCompleted, Event.cameraStart],
        isRequeueEv e = false := by
      intro e he
      fin_cases he <;> rfl
    have hS : ∀ e ∈ header1 env c0 ++ header2 env
        ++ (allocLoop env.allocateRet env.allocatedCount env.streamIds).1
        ++ (requestLoop env.createRequestOk env.addBufferRet
            (List.range env.numBuffers)).trace
        ++ [Event.connectRequestCompleted, Event.cameraStart],
        isRequeueEv e = false :=
      classifier_append (classifier_append (classifier_append (classifier_append
        (header1_classifier env c0 isRequeueEv rfl (fun _ => rfl) (fun _ => rfl) rfl rfl
          (fun _ => rfl) (fun _ => rfl) (fun _ => rfl))
        (header2_classifier env isRequeueEv (fun _ => rfl) rfl (fun _ => rfl) rfl))
        (allocLoop_classifier _ _ _ isRequeueEv (fun _ => rfl) (fun _ => rfl) (fun _ => rfl)))
        (requestLoop_classifier _ _ _ isRequeueEv (fun _ => rfl) (fun _ => rfl)
          (fun _ _ _ => rfl) (fun _ => rfl)))
        htail2
    have hq : ∀ e ∈ (start env).requests.map Event.queueRequest, isRequeueEv e = false :=
      queueMap_classifier _ isRequeueEv (fun _ => rfl)
    have hlt : ∀ e ∈ [Event.loopTimeout 3], isRequeueEv e = false := by
      intro e he
      fin_cases he <;> rfl
    have hmsg : ∀ e ∈ [Event.print (goMsg genv.execRet)], isRequeueEv e = false := by
      intro e he
      fin_cases he <;> rfl
    have hfin : ∀ e ∈ finishTrace, isRequeueEv e = false := by
      intro e he
      simp only [finishTrace] at he
      fin_cases he <;> rfl
    exact requeuePreceded_append i _ _ (requeuePreceded_append i _ _
      (requeuePreceded_of_not_mem i _ (not_mem_of_classifier hS rfl))
      (requeuePreceded_append i _ _ (requeuePreceded_append i _ _
        (requeuePreceded_append i _ _
          (requeuePreceded_of_not_mem i _ (not_mem_of_classifier hq rfl))
          (requeuePreceded_of_not_mem i _ (not_mem_of_classifier hlt rfl)))
        (requeuePreceded_flat genv.completions i))
        (requeuePreceded_of_not_mem i _ (not_mem_of_classifier hmsg rfl))))
      (requeuePreceded_of_not_mem i _ (not_mem_of_classifier hfin rfl))
  · -- every requeue precedes the camera release
    have hAB : run env genv
        = (header1 env c0 ++ (header2 env
            ++ ((allocLoop env.allocateRet env.allocatedCount env.streamIds).1
              ++ ((requestLoop env.createRequestOk env.addBufferRet
                    (List.range env.numBuffers)).trace
                ++ ([Event.connectRequestCompleted, Event.cameraStart]
                  ++ ((start env).requests.map Event.queueRequest
                    ++ ([Event.loopTimeout 3]
                      ++ ((genv.completions.map deliver).flatten
                        ++ [Event.print (goMsg genv.execRet)]))))))))
          ++ finishTrace := by
      rw [hrun, htr]
      simp [List.append_assoc]
    rw [hAB]
    refine eventsBefore_split _ _ _ _ ?_ ?_
    · intro e he
      simp only [finishTrace] at he
      fin_cases he <;> rfl
    · refine classifier_append (header1_classifier env c0 _ rfl (fun _ => rfl)
          (fun _ => rfl) rfl rfl (fun _ => rfl) (fun _ => rfl) (fun _ => rfl))
        (classifier_append (header2_classifier env _ (fun _ => rfl) rfl (fun _ => rfl) rfl)
        (classifier_append (allocLoop_classifier _ _ _ _ (fun _ => rfl) (fun _ => rfl)
            (fun _ => rfl))
        (classifier_append (requestLoop_classifier _ _ _ _ (fun _ => rfl) (fun _ => rfl)
            (fun _ _ _ => rfl) (fun _ => rfl))
        (classifier_append (by intro e he; fin_cases he <;> rfl)
        (classifier_append (queueMap_classifier _ _ (fun _ => rfl))
        (classifier_append (by intro e he; fin_cases he <;> rfl)
        (classifier_append (flat_classifier _ _ (fun _ => rfl) (fun _ => rfl)
            (fun _ _ => rfl) (fun _ => rfl) (fun _ => rfl))
          (by intro e he; fin_cases he <;> rfl))))))))

/-- Witness for C3 at the concrete success environment: `go` queues request
0 that `start` created, and completed request 5 is requeued. -/
theorem run_lifecycle_order_witness :
    Event.queueRequest 0 ∈ run demoEnv demoGo
    ∧ Event.requeue 5 ∈ run demoEnv demoGo := by
  have h := run_lifecycle_order demoEnv demoGo (by decide)
  exact ⟨h.2.2.2.2.1 0 (by decide),
    (h.2.2.2.2.2.1 ⟨5, RequestStatus.requestComplete,
        [⟨⟨2592, 1944, 2592, "R8"⟩, 1, [⟨100⟩], [[7]], "0.1", "0.2"⟩]⟩
      (by decide) (by decide)).2⟩

end SimpleCam
